import Mathlib

/-!
# PAL pthreads device backend and `p_run`

A shallow embedding of `src/base/devices/pthreads/device.c` and
`src/base/p_run.c`.

* C `int` values are mathematical integers (`Int`); signed overflow, which is
  undefined in C, is outside the model.
* Pointers are addresses (`Nat`), `NULL` is `0`.  Objects reached through a
  pointer (`struct dev`, `struct team`, `struct prog`) live in the `World`.
* Everything the code does to the outside (status stores, the barrier, image
  loads, control-block reads, sleeps, frees) is appended to `World.trace` in
  program order.
* What the outside answers (`e_load`, `e_read`, `sysconf`, `p_ref_is_err`, the
  property ids of `pal_base.h`) is an `Env`, left arbitrary in the theorems.
* `while (true)` in `dev_wait` is run with fuel; `none` means that the loop has
  not left within the fuel given.
-/

namespace PAL

/-! ## Constants -/

/-- Status `STATUS_NONE` (`#define STATUS_NONE 0`): the IDLE state. -/
def STATUS_NONE : Nat := 0
/-- Status `STATUS_SCHEDULED` (`#define STATUS_SCHEDULED 1`). -/
def STATUS_SCHEDULED : Nat := 1
/-- Status `STATUS_RUNNING` (`#define STATUS_RUNNING 2`). -/
def STATUS_RUNNING : Nat := 2
/-- Status `STATUS_DONE` (`#define STATUS_DONE 3`). -/
def STATUS_DONE : Nat := 3

/-- The null pointer. -/
def NULL : Nat := 0

/-- Linux `errno.h`: bad file descriptor. -/
def EBADF : Int := 9
/-- Linux `errno.h`: input/output error. -/
def EIO : Int := 5
/-- Linux `errno.h`: invalid argument. -/
def EINVAL : Int := 22
/-- Linux `errno.h`: function not implemented. -/
def ENOSYS : Int := 38

/-! ## Data model -/

/-- The C `struct dev`: the field this code reads and writes, the pointer to the
backend-private data. -/
structure dev where
  dev_data : Nat
  deriving DecidableEq, Repr

/-- The C `struct team`: the device pointer and the member array `data`
(`struct pthreads_member[]`, one `status` word per member).  The list holds the
cells that `team->data` gives access to: the cells `calloc` handed out, and no
cell when `team->data` is `NULL`. -/
structure team where
  dev : Nat
  data : List Nat
  deriving DecidableEq, Repr

/-- The C `struct prog`: the image path handed to `e_load`. -/
structure prog where
  path : String
  deriving DecidableEq, Repr

/-- One effect on the outside, in the order the code performs them. -/
inductive Event where
  /-- Store `members[i].status = v` on the team at address `team`. -/
  | store (team : Nat) (i : Int) (v : Nat)
  /-- Full barrier `__sync_synchronize()`. -/
  | barrier
  /-- Call `e_load(path, &data->dev, row, col, E_FALSE)`. -/
  | load (path : String) (data : Nat) (row col : Int)
  /-- Call `e_read(&data->ctrl, 0, 0, 0, &ctrl, sizeof(ctrl))`. -/
  | read (data : Nat)
  /-- Call `usleep(us)`. -/
  | usleep (us : Nat)
  /-- Call `free(p)`. -/
  | free (p : Nat)
  deriving DecidableEq, Repr

/-- Host memory and the log of effects. `reads` counts the control-block reads
done so far: the next read is answered by `Env.e_read _ reads`. -/
structure World where
  devs : Nat → dev
  teams : Nat → team
  progs : Nat → prog
  reads : Nat
  trace : List Event

/-- The ids of `pal_base.h` that `dev_query` switches on (the header is not part
of the sources at hand, so the numbers are left open). -/
structure Props where
  P_PROP_TYPE : Int
  P_PROP_NODES : Int
  P_PROP_TOPOLOGY : Int
  P_PROP_SIMD : Int
  P_PROP_MEMARCH : Int
  P_PROP_WHOAMI : Int
  P_DEV_PTHREADS : Int
  deriving DecidableEq, Repr

/-- Case labels of one C `switch` are pairwise different constants. -/
def Props.distinct (p : Props) : Prop :=
  [p.P_PROP_TYPE, p.P_PROP_NODES, p.P_PROP_TOPOLOGY, p.P_PROP_SIMD,
    p.P_PROP_MEMARCH, p.P_PROP_WHOAMI].Nodup

instance (p : Props) : Decidable p.distinct := by
  unfold Props.distinct; infer_instance

/-- What the surroundings answer.
* `e_load path data row col`: the error code of loading the image on one core;
* `e_read data k i`: cell `status[i]` of the control block as the `k`-th read
  finds it;
* `nprocs`: `sysconf(_SC_NPROCESSORS_ONLN)`;
* `p_ref_is_err`: the handle test of `pal_base_private.h`;
* `uninit`: the indeterminate value of the local `data` in `dev_init`;
* `size_max`: the largest `size_t` of the platform (`SIZE_MAX`);
* `calloc_ok count`: whether the allocator has memory for `count` members. -/
structure Env where
  props : Props
  e_load : String → Nat → Int → Int → Int
  e_read : Nat → Nat → Nat → Nat
  nprocs : Int
  p_ref_is_err : Nat → Bool
  uninit : Nat
  size_max : Nat
  calloc_ok : Int → Bool

/-- Append one effect to the log. -/
def World.emit (w : World) (e : Event) : World :=
  { w with trace := w.trace ++ [e] }

/-- The store `members[i].status = v` through `team->data`: the cell is
replaced when `i` is one of the allocated cells; a store outside them does not
touch any cell of the register. The store is logged either way. -/
def World.store (w : World) (t : Nat) (i : Int) (v : Nat) : World :=
  let tm := w.teams t
  let cells := if 0 ≤ i then tm.data.set i.toNat v else tm.data
  { w with teams := Function.update w.teams t { tm with data := cells },
           trace := w.trace ++ [Event.store t i v] }

/-- The request `calloc(count, sizeof(struct pthreads_member))` can be met: `count`,
converted to `size_t`, is not negative, `count * 4` bytes (a member is one
`uint32_t`) do not exceed `SIZE_MAX`, and the allocator has the memory. -/
def calloc_succeeds (env : Env) (count : Int) : Prop :=
  0 ≤ count ∧ count * 4 ≤ (env.size_max : Int) ∧ env.calloc_ok count = true

instance (env : Env) (count : Int) : Decidable (calloc_succeeds env count) := by
  unfold calloc_succeeds; infer_instance

/-- Allocation `calloc(count, sizeof(struct pthreads_member))`: `count` zeroed cells
when the request can be met, and `NULL`, that is no cell at all, when it cannot
(a negative count, a size beyond `SIZE_MAX`, or no memory). -/
def calloc (env : Env) (count : Int) : List Nat :=
  if calloc_succeeds env count then List.replicate count.toNat 0 else []

/-! ## device.c -/

/-- Function `dev_init`: returns `dev` at once when `dev->dev_data` is set; otherwise
stores the (never assigned) local `data` into `dev->dev_data`. -/
def dev_init (env : Env) (w : World) (d : Nat) (_flags : Int) : Nat × World :=
  if (w.devs d).dev_data ≠ NULL then (d, w)
  else (d, { w with devs := Function.update w.devs d { w.devs d with dev_data := env.uninit } })

/-- Function `dev_fini`: nothing when `dev->dev_data` is `NULL`; otherwise frees it and
sets it to `NULL`. -/
def dev_fini (w : World) (d : Nat) : World :=
  let data := (w.devs d).dev_data
  if data = NULL then w
  else
    let w1 := w.emit (Event.free data)
    { w1 with devs := Function.update w1.devs d { w1.devs d with dev_data := NULL } }

/-- Function `dev_query`: the `switch` on `property`, cases in source order. The world
is handed back as the function leaves it. -/
def dev_query (env : Env) (w : World) (d : Nat) (property : Int) : Int × World :=
  if d = NULL then (- EINVAL, w)
  else if property = env.props.P_PROP_TYPE then (env.props.P_DEV_PTHREADS, w)
  else if property = env.props.P_PROP_NODES then (env.nprocs, w)
  else if property = env.props.P_PROP_TOPOLOGY then (1, w)
  else if property = env.props.P_PROP_SIMD then (1, w)
  else if property = env.props.P_PROP_MEMARCH ∨ property = env.props.P_PROP_WHOAMI then
    (- ENOSYS, w)
  else (- EINVAL, w)

/-- Function `dev_open`: `team->dev = dev; team->data = calloc(count, ...); return team`.
Neither `start` nor `dev->dev_data` is used, and the result of `calloc` is
stored as it comes, `NULL` included. -/
def dev_open (env : Env) (w : World) (d : Nat) (t : Nat) (_start count : Int) : Nat × World :=
  let w1 := { w with teams := Function.update w.teams t { w.teams t with dev := d } }
  let members := calloc env count
  let w2 := { w1 with teams := Function.update w1.teams t { w1.teams t with data := members } }
  (t, w2)

/-- First loop of `dev_run`: `for (i = start; i < start + size; i++)
members[i].status = STATUS_SCHEDULED;` with `n` iterations left. -/
def dev_run_schedule (t : Nat) : Int → Nat → World → World
  | _, 0, w => w
  | i, n + 1, w => dev_run_schedule t (i + 1) n (w.store t i STATUS_SCHEDULED)

/-- Second loop of `dev_run`: `e_load` for `i / 4`, `i % 4` (C division,
truncating), leaving with `-EIO` at the first load that reports an error; `n`
iterations left. -/
def dev_run_load (env : Env) (path : String) (data : Nat) : Int → Nat → World → Int × World
  | _, 0, w => (0, w)
  | i, n + 1, w =>
    let err := env.e_load path data (Int.tdiv i 4) (Int.tmod i 4)
    let w1 := w.emit (Event.load path data (Int.tdiv i 4) (Int.tmod i 4))
    if err ≠ 0 then (- EIO, w1)
    else dev_run_load env path data (i + 1) n w1

/-- Function `dev_run`. Both loops run from `start` while `i < start + size`, that is
`((start + size) - start).toNat` times. -/
def dev_run (env : Env) (w : World) (d t p : Nat) (start size : Int) (_argn : Int)
    (_args : List String) (_flags : Int) : Int × World :=
  let data := (w.devs d).dev_data
  if data = NULL then (- EBADF, w)
  else
    let n := ((start + size) - start).toNat
    let w1 := dev_run_schedule t start n w
    let w2 := w1.emit Event.barrier
    dev_run_load env (w2.progs p).path data start n w2

/-- The `for (i = 0; i < 16; i++) switch (ctrl.status[i])` of `dev_wait`:
`need_wait` becomes true on `STATUS_SCHEDULED` and `STATUS_RUNNING`, every other
value leaves it alone; `n` iterations left. -/
def dev_wait_scan (status : Nat → Nat) : Nat → Nat → Bool → Bool
  | _, 0, need_wait => need_wait
  | i, n + 1, need_wait =>
    if status i = STATUS_SCHEDULED ∨ status i = STATUS_RUNNING then
      dev_wait_scan status (i + 1) n true
    else dev_wait_scan status (i + 1) n need_wait

/-- The `while (true)` of `dev_wait`: read the control block, scan its 16
cells, leave when none asks to wait, else `usleep(1000)` and go round again. -/
def dev_wait_loop (env : Env) (data : Nat) : Nat → World → Option World
  | 0, _ => none
  | fuel + 1, w =>
    let status := env.e_read data w.reads
    let w1 := { w.emit (Event.read data) with reads := w.reads + 1 }
    let need_wait := dev_wait_scan status 0 16 false
    if !need_wait then some w1
    else dev_wait_loop env data fuel (w1.emit (Event.usleep 1000))

/-- Function `dev_wait`: the polling loop, then `return 0`. -/
def dev_wait (env : Env) (fuel : Nat) (w : World) (d : Nat) (_t : Nat) : Option (Int × World) :=
  let data := (w.devs d).dev_data
  match dev_wait_loop env data fuel w with
  | none => none
  | some w1 => some (0, w1)

/-- The C `struct dev_ops`: the table of backend entry points. -/
structure dev_ops where
  init : Env → World → Nat → Int → Nat × World
  fini : World → Nat → World
  query : Env → World → Nat → Int → Int × World
  open_ : Env → World → Nat → Nat → Int → Int → Nat × World
  run : Env → World → Nat → Nat → Nat → Int → Int → Int → List String → Int → Int × World
  wait : Env → Nat → World → Nat → Nat → Option (Int × World)

/-- The table `struct dev_ops __pal_dev_pthreads_ops`. -/
def __pal_dev_pthreads_ops : dev_ops where
  init := dev_init
  fini := fun w d => dev_fini w d
  query := dev_query
  open_ := dev_open
  run := dev_run
  wait := dev_wait

/-! ## p_run.c -/

/-- Modelled from the spec: `p_wait` is called by `p_run` but its body is not
among the sources; §4.4 step 5 has `run` "internally call `wait(team)`", which
for a team is the `wait` entry of its device's backend table. -/
def p_wait (env : Env) (ops : dev_ops) (fuel : Nat) (w : World) (t : Nat) :
    Option (Int × World) :=
  ops.wait env fuel w (w.teams t).dev t

/-- Function `p_run`. Here `ops` is `pdev->dev_ops`. -/
def p_run (env : Env) (ops : dev_ops) (fuel : Nat) (w : World) (p t : Nat)
    (start size nargs : Int) (args : List String) (flags : Int) : Option (Int × World) :=
  let pdev := (w.teams t).dev
  if env.p_ref_is_err p || env.p_ref_is_err t then some (- EINVAL, w)
  else if start < 0 ∨ size ≤ 0 then some (- EINVAL, w)
  else
    let r := ops.run env w pdev t p start size nargs args flags
    if r.1 ≠ 0 then some (r.1, r.2)
    else if Int.land flags 1 = 0 then p_wait env ops fuel r.2 t
    else some (0, r.2)

/-! ## Helpers for the statements -/

/-- The values `i, i + 1, ..., i + n - 1` that a loop `for (; i < hi; i++)`
with `n` iterations walks through. -/
def slots : Int → Nat → List Int
  | _, 0 => []
  | i, n + 1 => i :: slots (i + 1) n

/-- The log entry of the load that `dev_run` issues for slot `i`. -/
def load_event (path : String) (data : Nat) (i : Int) : Event :=
  Event.load path data (Int.tdiv i 4) (Int.tmod i 4)

/-- The answer of `e_load` for slot `i`. -/
def load_err (env : Env) (path : String) (data : Nat) (i : Int) : Int :=
  env.e_load path data (Int.tdiv i 4) (Int.tmod i 4)

/-- The composite of the round-trip property, `run(NonBlocking) + wait()`: `p_run`
with the NonBlocking flag and then, whatever that call returned, `p_wait` on the
same team. It returns when both calls have returned; its result is the error
of `run` when `run` failed and the result of `wait` otherwise, its state the one
that `wait` leaves. -/
def run_nonblocking_then_wait (env : Env) (ops : dev_ops) (fuel : Nat) (w : World) (p t : Nat)
    (start size nargs : Int) (args : List String) (flags : Int) : Option (Int × World) :=
  match p_run env ops fuel w p t start size nargs args flags with
  | none => none
  | some r =>
    match p_wait env ops fuel r.2 t with
    | none => none
    | some r2 => some (if r.1 ≠ 0 then r.1 else r2.1, r2.2)

/-- An environment like `envOK` whose allocator has no memory left. -/
def envNoMem : Env where
  props := ⟨1, 3, 4, 5, 6, 7, 3⟩
  e_load := fun _ _ _ _ => 0
  e_read := fun _ _ _ => STATUS_DONE
  nprocs := 4
  p_ref_is_err := fun r => decide (4294963200 < r)
  uninit := 0
  size_max := 4294967295
  calloc_ok := fun _ => false

/-- An environment in which the load of slot 2 fails and cell 0 of the control
block stays RUNNING at every poll. -/
def envFail2Stuck : Env where
  props := ⟨1, 3, 4, 5, 6, 7, 3⟩
  e_load := fun _ _ row col => if row = 0 ∧ col = 2 then 1 else 0
  e_read := fun _ _ i => if i = 0 then STATUS_RUNNING else STATUS_DONE
  nprocs := 4
  p_ref_is_err := fun r => decide (4294963200 < r)
  uninit := 0
  size_max := 4294967295
  calloc_ok := fun _ => true

/-- A world like `world4` whose team has all four cells DONE. -/
def worldDone : World where
  devs := fun _ => ⟨1000⟩
  teams := fun _ => ⟨1, [3, 3, 3, 3]⟩
  progs := fun _ => ⟨"a.elf"⟩
  reads := 0
  trace := []

/-- An environment in which every load succeeds and every poll finds all cells
DONE, with sample values for the property ids, a four-processor host, a 32-bit
`size_t` and an allocator that has memory for every request. -/
def envOK : Env where
  props := ⟨1, 3, 4, 5, 6, 7, 3⟩
  e_load := fun _ _ _ _ => 0
  e_read := fun _ _ _ => STATUS_DONE
  nprocs := 4
  p_ref_is_err := fun r => decide (4294963200 < r)
  uninit := 0
  size_max := 4294967295
  calloc_ok := fun _ => true

/-- A world with an initialized device at address 1, a team of 4 cells (in
mixed states) on it at address 2, and a program at address 3. -/
def world4 : World where
  devs := fun _ => ⟨1000⟩
  teams := fun _ => ⟨1, [0, 3, 2, 0]⟩
  progs := fun _ => ⟨"a.elf"⟩
  reads := 0
  trace := []

/-- An environment like `envOK` in which the load on core (row 0, column 2),
that is slot 2, fails with code 1. -/
def envFail2 : Env where
  props := ⟨1, 3, 4, 5, 6, 7, 3⟩
  e_load := fun _ _ row col => if row = 0 ∧ col = 2 then 1 else 0
  e_read := fun _ _ _ => STATUS_DONE
  nprocs := 4
  p_ref_is_err := fun r => decide (4294963200 < r)
  uninit := 0
  size_max := 4294967295
  calloc_ok := fun _ => true

/-- A control-block snapshot asks `dev_wait` to go on waiting: one of the cells
`status[0..15]` is `STATUS_SCHEDULED` or `STATUS_RUNNING`. -/
def pending (status : Nat → Nat) : Prop :=
  ∃ i : Nat, i < 16 ∧ (status i = STATUS_SCHEDULED ∨ status i = STATUS_RUNNING)

/-- The world once `dev_wait` has read the control block one more time. -/
def World.polled (w : World) (data : Nat) : World :=
  { w with reads := w.reads + 1, trace := w.trace ++ [Event.read data] }

/-- An environment like `envOK` in which cell 0 of the control block stays
RUNNING at every poll. -/
def envStuck : Env where
  props := ⟨1, 3, 4, 5, 6, 7, 3⟩
  e_load := fun _ _ _ _ => 0
  e_read := fun _ _ i => if i = 0 then STATUS_RUNNING else STATUS_DONE
  nprocs := 4
  p_ref_is_err := fun r => decide (4294963200 < r)
  uninit := 0
  size_max := 4294967295
  calloc_ok := fun _ => true

/-- An environment like `envOK` in which cell 1 of the control block holds 4, a
value outside the four status codes (a fault code), and the others DONE. -/
def envFault : Env where
  props := ⟨1, 3, 4, 5, 6, 7, 3⟩
  e_load := fun _ _ _ _ => 0
  e_read := fun _ _ i => if i = 1 then 4 else STATUS_DONE
  nprocs := 4
  p_ref_is_err := fun r => decide (4294963200 < r)
  uninit := 0
  size_max := 4294967295
  calloc_ok := fun _ => true

/-- A world like `world4` whose devices have no backend data (`dev_data` is
`NULL`). -/
def worldClosed : World where
  devs := fun _ => ⟨0⟩
  teams := fun _ => ⟨1, [0, 3, 2, 0]⟩
  progs := fun _ => ⟨"a.elf"⟩
  reads := 0
  trace := []

/-- An environment like `envOK` in which the never-assigned local `data` of
`dev_init` happens to hold the address 7. -/
def envJunk : Env where
  props := ⟨1, 3, 4, 5, 6, 7, 3⟩
  e_load := fun _ _ _ _ => 0
  e_read := fun _ _ _ => STATUS_DONE
  nprocs := 4
  p_ref_is_err := fun r => decide (4294963200 < r)
  uninit := 7
  size_max := 4294967295
  calloc_ok := fun _ => true

/-- What `m` rounds of the polling loop that found a pending snapshot add to the
log: a read of the control block and a sleep of 1000 microseconds, `m` times. -/
def wait_rounds (data : Nat) : Nat → List Event
  | 0 => []
  | m + 1 => Event.read data :: Event.usleep 1000 :: wait_rounds data m

/-- An environment like `envOK` in which cell 5 of the control block is SCHEDULED
at the first poll, cell 9 is RUNNING at the second, and all cells are DONE from
the third poll on. -/
def envTwoRounds : Env where
  props := ⟨1, 3, 4, 5, 6, 7, 3⟩
  e_load := fun _ _ _ _ => 0
  e_read := fun _ k i =>
    if k = 0 ∧ i = 5 then STATUS_SCHEDULED
    else if k = 1 ∧ i = 9 then STATUS_RUNNING
    else STATUS_DONE
  nprocs := 4
  p_ref_is_err := fun r => decide (4294963200 < r)
  uninit := 0
  size_max := 4294967295
  calloc_ok := fun _ => true

/-- The world `world4` after two teams were opened on the device at address 1:
one at address 2 over the device range `[0, 2)` and one at address 5 over the
device range `[4, 6)`. -/
def worldTwoTeams : World :=
  (dev_open envOK (dev_open envOK world4 1 2 0 2).2 1 5 4 2).2

/-- A backend table whose `run` and `wait` would leave their mark in the log if
they were called (a sleep of 7 and of 9 microseconds). -/
def opsMarking : dev_ops where
  init := dev_init
  fini := fun w d => dev_fini w d
  query := dev_query
  open_ := dev_open
  run := fun _ w _ _ _ _ _ _ _ _ => (0, w.emit (Event.usleep 7))
  wait := fun _ _ w _ _ => some (0, w.emit (Event.usleep 9))

/-! ## Frame lemmas -/

@[simp]
theorem emit_devs (w : World) (e : Event) : (w.emit e).devs = w.devs := rfl
@[simp]
theorem emit_teams (w : World) (e : Event) : (w.emit e).teams = w.teams := rfl
@[simp]
theorem emit_progs (w : World) (e : Event) : (w.emit e).progs = w.progs := rfl
@[simp]
theorem emit_reads (w : World) (e : Event) : (w.emit e).reads = w.reads := rfl
@[simp]
theorem emit_trace (w : World) (e : Event) : (w.emit e).trace = w.trace ++ [e] := rfl

@[simp]
theorem store_devs (w : World) (t : Nat) (i : Int) (v : Nat) :
    (w.store t i v).devs = w.devs := rfl
@[simp]
theorem store_progs (w : World) (t : Nat) (i : Int) (v : Nat) :
    (w.store t i v).progs = w.progs := rfl
@[simp]
theorem store_reads (w : World) (t : Nat) (i : Int) (v : Nat) :
    (w.store t i v).reads = w.reads := rfl
@[simp]
theorem store_trace (w : World) (t : Nat) (i : Int) (v : Nat) :
    (w.store t i v).trace = w.trace ++ [Event.store t i v] := rfl

theorem store_teams_other (w : World) (t u : Nat) (i : Int) (v : Nat) (h : u ≠ t) :
    (w.store t i v).teams u = w.teams u := by
  simp [World.store, Function.update_noteq h]

@[simp]
theorem store_team_dev (w : World) (t : Nat) (i : Int) (v : Nat) :
    ((w.store t i v).teams t).dev = (w.teams t).dev := by
  simp [World.store]

theorem store_team_data (w : World) (t : Nat) (i : Int) (v : Nat) :
    ((w.store t i v).teams t).data
      = if 0 ≤ i then (w.teams t).data.set i.toNat v else (w.teams t).data := by
  simp [World.store]

/-! ## The scheduling loop -/

@[simp]
theorem schedule_devs (t : Nat) (n : Nat) : ∀ (i : Int) (w : World),
    (dev_run_schedule t i n w).devs = w.devs := by
  induction n with
  | zero => intro i w; rfl
  | succ n ih => intro i w; simp [dev_run_schedule, ih]

@[simp]
theorem schedule_progs (t : Nat) (n : Nat) : ∀ (i : Int) (w : World),
    (dev_run_schedule t i n w).progs = w.progs := by
  induction n with
  | zero => intro i w; rfl
  | succ n ih => intro i w; simp [dev_run_schedule, ih]

@[simp]
theorem schedule_reads (t : Nat) (n : Nat) : ∀ (i : Int) (w : World),
    (dev_run_schedule t i n w).reads = w.reads := by
  induction n with
  | zero => intro i w; rfl
  | succ n ih => intro i w; simp [dev_run_schedule, ih]

theorem schedule_teams_other (t u : Nat) (h : u ≠ t) (n : Nat) : ∀ (i : Int) (w : World),
    (dev_run_schedule t i n w).teams u = w.teams u := by
  induction n with
  | zero => intro i w; rfl
  | succ n ih => intro i w; simp [dev_run_schedule, ih, store_teams_other _ _ _ _ _ h]

@[simp]
theorem schedule_team_dev (t : Nat) (n : Nat) : ∀ (i : Int) (w : World),
    ((dev_run_schedule t i n w).teams t).dev = (w.teams t).dev := by
  induction n with
  | zero => intro i w; rfl
  | succ n ih => intro i w; simp [dev_run_schedule, ih]

@[simp]
theorem schedule_length (t : Nat) (n : Nat) : ∀ (i : Int) (w : World),
    ((dev_run_schedule t i n w).teams t).data.length = (w.teams t).data.length := by
  induction n with
  | zero => intro i w; rfl
  | succ n ih =>
    intro i w
    simp only [dev_run_schedule, ih, store_team_data]
    split <;> simp

/-- Cell `j` after the scheduling loop: `STATUS_SCHEDULED` when `j` is an
allocated cell inside `[i, i + n)`, the old value otherwise. -/
theorem schedule_cell (t : Nat) (n : Nat) : ∀ (i : Int) (w : World) (j : Nat),
    ((dev_run_schedule t i n w).teams t).data[j]?
      = if i ≤ (j : Int) ∧ (j : Int) < i + n ∧ j < (w.teams t).data.length
        then some STATUS_SCHEDULED else (w.teams t).data[j]? := by
  induction n with
  | zero =>
    intro i w j
    simp only [dev_run_schedule]
    split
    · omega
    · rfl
  | succ n ih =>
    intro i w j
    simp only [dev_run_schedule]
    rw [ih]
    have hlen : ((w.store t i STATUS_SCHEDULED).teams t).data.length = (w.teams t).data.length := by
      rw [store_team_data]; split <;> simp
    rw [hlen, store_team_data]
    by_cases hj : j < (w.teams t).data.length
    · by_cases h0 : 0 ≤ i
      · by_cases hij : i.toNat = j
        · have h1 : i ≤ (j : Int) ∧ (j : Int) < i + ((n + 1 : Nat) : Int) ∧ j < (w.teams t).data.length := by
            omega
          rw [if_pos h1, if_pos h0]
          split
          · rfl
          · subst hij
            simp [List.getElem?_set, hj]
        · rw [if_pos h0]
          have hne : ((w.teams t).data.set i.toNat STATUS_SCHEDULED)[j]? = (w.teams t).data[j]? := by
            simp [List.getElem?_set, hij]
          rw [hne]
          by_cases h2 : i + 1 ≤ (j : Int) ∧ (j : Int) < i + 1 + (n : Int) ∧ j < (w.teams t).data.length
          · rw [if_pos h2, if_pos (by omega)]
          · rw [if_neg h2, if_neg (by omega)]
      · rw [if_neg h0]
        by_cases h2 : i + 1 ≤ (j : Int) ∧ (j : Int) < i + 1 + (n : Int) ∧ j < (w.teams t).data.length
        · rw [if_pos h2, if_pos (by omega)]
        · rw [if_neg h2, if_neg (by omega)]
    · have hnone : (w.teams t).data[j]? = none := by
        simp [List.getElem?_eq_none]; omega
      have hnone2 : (if 0 ≤ i then (w.teams t).data.set i.toNat STATUS_SCHEDULED
          else (w.teams t).data)[j]? = none := by
        split
        · simp [List.getElem?_eq_none]; omega
        · exact hnone
      rw [hnone2, hnone, if_neg (by omega), if_neg (by omega)]

theorem mem_slots (n : Nat) : ∀ (i x : Int), x ∈ slots i n ↔ i ≤ x ∧ x < i + n := by
  induction n with
  | zero => intro i x; simp [slots]
  | succ n ih => intro i x; simp only [slots, List.mem_cons, ih]; omega

@[simp]
theorem slots_length (n : Nat) : ∀ i : Int, (slots i n).length = n := by
  induction n with
  | zero => intro i; rfl
  | succ n ih => intro i; simp [slots, ih]

theorem schedule_trace (t : Nat) (n : Nat) : ∀ (i : Int) (w : World),
    (dev_run_schedule t i n w).trace
      = w.trace ++ (slots i n).map (fun k => Event.store t k STATUS_SCHEDULED) := by
  induction n with
  | zero => intro i w; simp [dev_run_schedule, slots]
  | succ n ih => intro i w; simp [dev_run_schedule, slots, ih]

/-! ## The load loop -/

theorem load_frame (env : Env) (path : String) (data : Nat) (n : Nat) :
    ∀ (i : Int) (w : World),
      (dev_run_load env path data i n w).2.devs = w.devs ∧
      (dev_run_load env path data i n w).2.teams = w.teams ∧
      (dev_run_load env path data i n w).2.progs = w.progs ∧
      (dev_run_load env path data i n w).2.reads = w.reads := by
  induction n with
  | zero => intro i w; simp [dev_run_load]
  | succ n ih =>
    intro i w
    simp only [dev_run_load]
    split
    · simp
    · have h := ih (i + 1) (w.emit (Event.load path data (Int.tdiv i 4) (Int.tmod i 4)))
      simpa using h

theorem load_result (env : Env) (path : String) (data : Nat) (n : Nat) :
    ∀ (i : Int) (w : World),
      (dev_run_load env path data i n w).1 = 0 ∨ (dev_run_load env path data i n w).1 = - EIO := by
  induction n with
  | zero => intro i w; simp [dev_run_load]
  | succ n ih =>
    intro i w
    simp only [dev_run_load]
    split
    · simp
    · exact ih _ _

/-- All `n` loads succeed: the loop returns 0 after one load per slot. -/
theorem load_all_ok (env : Env) (path : String) (data : Nat) (n : Nat) :
    ∀ (i : Int) (w : World), (∀ k : Nat, k < n → load_err env path data (i + k) = 0) →
      dev_run_load env path data i n w
        = (0, { w with trace := w.trace ++ (slots i n).map (load_event path data) }) := by
  induction n with
  | zero => intro i w _; simp [dev_run_load, slots]
  | succ n ih =>
    intro i w h
    have h0 : env.e_load path data (Int.tdiv i 4) (Int.tmod i 4) = 0 := by
      have := h 0 (Nat.succ_pos n)
      simpa [load_err] using this
    have hrest : ∀ k : Nat, k < n → load_err env path data (i + 1 + k) = 0 := by
      intro k hk
      have := h (k + 1) (Nat.succ_lt_succ hk)
      have e : i + 1 + (k : Int) = i + ((k + 1 : Nat) : Int) := by push_cast; ring
      rw [e]; exact this
    simp only [dev_run_load, h0, ne_eq, not_true_eq_false, if_false]
    rw [ih (i + 1) _ hrest]
    simp [slots, load_event, World.emit]

/-- The load of slot `i + k` is the first to fail: the loop returns `-EIO`
after the loads of `i, ..., i + k` and issues none after it. -/
theorem load_first_fail (env : Env) (path : String) (data : Nat) (n : Nat) :
    ∀ (i : Int) (w : World) (k : Nat), k < n →
      (∀ j : Nat, j < k → load_err env path data (i + j) = 0) →
      load_err env path data (i + k) ≠ 0 →
      dev_run_load env path data i n w
        = (- EIO, { w with trace := w.trace ++ (slots i (k + 1)).map (load_event path data) }) := by
  induction n with
  | zero => intro i w k hk; omega
  | succ n ih =>
    intro i w k hk hbefore hfail
    cases k with
    | zero =>
      have h0 : env.e_load path data (Int.tdiv i 4) (Int.tmod i 4) ≠ 0 := by
        simpa [load_err] using hfail
      simp [dev_run_load, h0, slots, load_event, World.emit]
    | succ k =>
      have h0 : env.e_load path data (Int.tdiv i 4) (Int.tmod i 4) = 0 := by
        have := hbefore 0 (Nat.succ_pos k)
        simpa [load_err] using this
      have hb : ∀ j : Nat, j < k → load_err env path data (i + 1 + j) = 0 := by
        intro j hj
        have := hbefore (j + 1) (Nat.succ_lt_succ hj)
        have e : i + 1 + (j : Int) = i + ((j + 1 : Nat) : Int) := by push_cast; ring
        rw [e]; exact this
      have hf : load_err env path data (i + 1 + k) ≠ 0 := by
        have e : i + 1 + (k : Int) = i + ((k + 1 : Nat) : Int) := by push_cast; ring
        rw [e]; exact hfail
      simp only [dev_run_load, h0, ne_eq, not_true_eq_false, if_false]
      rw [ih (i + 1) _ k (Nat.lt_of_succ_lt_succ hk) hb hf]
      simp [slots, load_event, World.emit]

/-- The loop returns `-EIO` exactly when one of its loads fails. -/
theorem load_eio_iff (env : Env) (path : String) (data : Nat) (n : Nat) :
    ∀ (i : Int) (w : World),
      (dev_run_load env path data i n w).1 = - EIO ↔
        ∃ k : Nat, k < n ∧ load_err env path data (i + k) ≠ 0 := by
  induction n with
  | zero => intro i w; simp [dev_run_load, EIO]
  | succ n ih =>
    intro i w
    simp only [dev_run_load]
    by_cases h0 : env.e_load path data (Int.tdiv i 4) (Int.tmod i 4) = 0
    · simp only [h0, ne_eq, not_true_eq_false, if_false]
      rw [ih]
      constructor
      · rintro ⟨k, hk, hf⟩
        refine ⟨k + 1, Nat.succ_lt_succ hk, ?_⟩
        have e : i + ((k + 1 : Nat) : Int) = i + 1 + (k : Int) := by push_cast; ring
        rw [e]; exact hf
      · rintro ⟨k, hk, hf⟩
        cases k with
        | zero => exact absurd (by simpa [load_err] using h0) hf
        | succ k =>
          refine ⟨k, Nat.lt_of_succ_lt_succ hk, ?_⟩
          have e : i + 1 + (k : Int) = i + ((k + 1 : Nat) : Int) := by push_cast; ring
          rw [e]; exact hf
    · simp only [ne_eq, h0, not_false_eq_true, if_true, true_iff]
      exact ⟨0, Nat.succ_pos n, by simpa [load_err] using h0⟩

/-! ## dev_run -/

theorem dev_run_uninit (env : Env) (w : World) (d t p : Nat) (start size argn : Int)
    (args : List String) (flags : Int) (h : (w.devs d).dev_data = NULL) :
    dev_run env w d t p start size argn args flags = (- EBADF, w) := by
  simp [dev_run, h]

theorem dev_run_init (env : Env) (w : World) (d t p : Nat) (start size argn : Int)
    (args : List String) (flags : Int) (h : (w.devs d).dev_data ≠ NULL) :
    dev_run env w d t p start size argn args flags
      = dev_run_load env (w.progs p).path (w.devs d).dev_data start size.toNat
          ((dev_run_schedule t start size.toNat w).emit Event.barrier) := by
  simp [dev_run, h]

/-- The flags do not enter `dev_run`. -/
theorem dev_run_flags (env : Env) (w : World) (d t p : Nat) (start size argn : Int)
    (args : List String) (f g : Int) :
    dev_run env w d t p start size argn args f = dev_run env w d t p start size argn args g := rfl

/-- Cell `j` of the team after `dev_run` on a device with backend data. -/
theorem dev_run_cell (env : Env) (w : World) (d t p : Nat) (start size argn : Int)
    (args : List String) (flags : Int) (h : (w.devs d).dev_data ≠ NULL) (j : Nat) :
    ((dev_run env w d t p start size argn args flags).2.teams t).data[j]?
      = if start ≤ (j : Int) ∧ (j : Int) < start + size.toNat ∧ j < (w.teams t).data.length
        then some STATUS_SCHEDULED else (w.teams t).data[j]? := by
  rw [dev_run_init env w d t p start size argn args flags h]
  rw [(load_frame env _ _ _ _ _).2.1]
  simp only [emit_teams]
  exact schedule_cell t _ start w j

theorem p_run_nonblocking_ok (env : Env) (fuel : Nat) (w w1 : World) (p t : Nat)
    (start size nargs : Int) (args : List String) (flags : Int)
    (hret : p_run env __pal_dev_pthreads_ops fuel w p t start size nargs args flags = some (0, w1))
    (hnb : Int.land flags 1 ≠ 0) :
    0 ≤ start ∧ 0 < size ∧ (w.devs (w.teams t).dev).dev_data ≠ NULL ∧
      w1 = (dev_run env w (w.teams t).dev t p start size nargs args flags).2 := by
  by_cases he : (env.p_ref_is_err p || env.p_ref_is_err t) = true
  · simp [p_run, he, EINVAL] at hret
  by_cases hr : start < 0 ∨ size ≤ 0
  · simp [p_run, he, hr, EINVAL] at hret
  by_cases hd : (w.devs (w.teams t).dev).dev_data = NULL
  · simp [p_run, he, hr, __pal_dev_pthreads_ops, dev_run_uninit _ _ _ _ _ _ _ _ _ _ hd, EBADF]
      at hret
  by_cases hz : (dev_run env w (w.teams t).dev t p start size nargs args flags).1 = 0
  · simp only [p_run, he, hr, __pal_dev_pthreads_ops, hz, hnb, ne_eq, not_true_eq_false,
      if_false, Bool.false_eq_true, Option.some.injEq, Prod.mk.injEq, true_and] at hret
    exact ⟨by omega, by omega, hd, hret.symm⟩
  · simp only [p_run, he, hr, __pal_dev_pthreads_ops, hz, ne_eq, not_false_eq_true,
      if_true, if_false, Bool.false_eq_true, Option.some.injEq, Prod.mk.injEq] at hret
    exact hret.1.elim

/-- C1: when `p_run` with bit 0 of `flags` set (NonBlocking) returns 0 for a range
`[start, start + size)` that lies within the team's cells, then on return every
cell of that range holds `STATUS_SCHEDULED` (so none holds `STATUS_NONE`),
whatever the cells held before. A successful return already means that the
handles are valid, `0 ≤ start`, `0 < size` and the device has backend data. -/
theorem C1_run_nonblocking_publishes (env : Env) (fuel : Nat) (w w1 : World) (p t : Nat)
    (start size nargs : Int) (args : List String) (flags : Int)
    (hnb : Int.land flags 1 ≠ 0)
    (hrange : start + size ≤ (w.teams t).data.length)
    (hret : p_run env __pal_dev_pthreads_ops fuel w p t start size nargs args flags = some (0, w1)) :
    (0 ≤ start ∧ 0 < size ∧ (w.devs (w.teams t).dev).dev_data ≠ NULL) ∧
    (w1.teams t).data.length = (w.teams t).data.length ∧
    ∀ i : Int, start ≤ i → i < start + size →
      (w1.teams t).data[i.toNat]? = some STATUS_SCHEDULED ∧
      (w1.teams t).data[i.toNat]? ≠ some STATUS_NONE := by
  obtain ⟨h0, h1, hd, hw⟩ := p_run_nonblocking_ok env fuel w w1 p t start size nargs args flags hret hnb
  refine ⟨⟨h0, h1, hd⟩, ?_, ?_⟩
  · rw [hw, dev_run_init _ _ _ _ _ _ _ _ _ _ hd, (load_frame _ _ _ _ _ _).2.1]
    simp
  · intro i hi1 hi2
    have hc : (w1.teams t).data[i.toNat]? = some STATUS_SCHEDULED := by
      rw [hw, dev_run_cell _ _ _ _ _ _ _ _ _ _ hd]
      rw [if_pos]
      omega
    rw [hc]
    exact ⟨rfl, by simp [STATUS_SCHEDULED, STATUS_NONE]⟩

/-- Witness for C1: range `[1, 4)` of a four-cell team holding IDLE, DONE, RUNNING, IDLE. -/
theorem C1_run_nonblocking_publishes_witness :
    (envOK.p_ref_is_err 3 = false ∧ envOK.p_ref_is_err 2 = false) ∧
    (world4.teams 2).data = [0, 3, 2, 0] ∧
    ∃ w1 : World,
      p_run envOK __pal_dev_pthreads_ops 0 world4 3 2 1 3 0 [] 1 = some (0, w1) ∧
      (w1.teams 2).data = [0, 1, 1, 1] ∧
      ((0 : Int) ≤ 1 ∧ (0 : Int) < 3 ∧ (world4.devs (world4.teams 2).dev).dev_data ≠ NULL) ∧
      (w1.teams 2).data.length = (world4.teams 2).data.length ∧
      ∀ i : Int, 1 ≤ i → i < 1 + 3 →
        (w1.teams 2).data[i.toNat]? = some STATUS_SCHEDULED ∧
        (w1.teams 2).data[i.toNat]? ≠ some STATUS_NONE :=
  ⟨by decide, by decide,
    (dev_run envOK world4 1 2 3 1 3 0 [] 1).2, by rfl, by decide,
    C1_run_nonblocking_publishes envOK 0 world4 _ 3 2 1 3 0 [] 1 (by decide) (by decide) (by rfl)⟩

theorem slots_eq_range (n : Nat) : ∀ i : Int,
    slots i n = (List.range n).map (fun k : Nat => i + (k : Int)) := by
  induction n with
  | zero => intro i; rfl
  | succ n ih =>
    intro i
    rw [List.range_succ_eq_map, slots, ih]
    simp only [List.map_cons, List.map_map, Nat.cast_zero, add_zero, List.cons.injEq, true_and]
    apply List.map_congr_left
    intro k _
    simp only [Function.comp, Nat.succ_eq_add_one]
    push_cast
    ring

/-- The log of `dev_run` on a device with backend data, up to the loads. -/
theorem dev_run_trace_head (t : Nat) (start : Int) (n : Nat) (w : World) :
    ((dev_run_schedule t start n w).emit Event.barrier).trace
      = w.trace ++ (List.range n).map (fun k : Nat => Event.store t (start + k) STATUS_SCHEDULED)
          ++ [Event.barrier] := by
  rw [emit_trace, schedule_trace, slots_eq_range]
  simp [List.map_map, Function.comp]

/-- C4 (the code at the failing input): on a four-cell team of an initialized
device, with valid handles, `p_run` for the range `[3, 5)`, which reaches beyond
the team's cells, does not return `-EINVAL`: it stores to `members[3]` and
`members[4]`, issues both loads and returns 0. -/
theorem C4_run_range_beyond_team_returns_zero :
    ((world4.teams 2).data.length = 4 ∧ (3 : Int) + 2 > 4) ∧
    (p_run envOK __pal_dev_pthreads_ops 0 world4 3 2 3 2 0 [] 1).map Prod.fst = some 0 ∧
    (0 : Int) ≠ - EINVAL ∧
    (p_run envOK __pal_dev_pthreads_ops 0 world4 3 2 3 2 0 [] 1).map (fun r => r.2.trace)
      = some [Event.store 2 3 1, Event.store 2 4 1, Event.barrier,
              Event.load "a.elf" 1000 0 3, Event.load "a.elf" 1000 1 0] := by
  decide

/-- C6: on a device with backend data, for every answer of the loads
(`load_err env path data i` is what `e_load` returns for slot `i`):
* `dev_run` returns `-EIO` exactly when the load of some targeted slot fails, and 0
  exactly when none fails;
* when slot `start + k` is the first whose load fails, the log grows by the
  `size` status stores, the barrier, and then the loads of `start, ..., start + k`
  in this order, one each, and nothing after them;
* when no load fails, it grows by the stores, the barrier and one load for each of
  `start, ..., start + size - 1`;
* whatever is returned, every targeted cell of the team holds `STATUS_SCHEDULED`
  on return (nothing is rolled back). -/
theorem C6_dev_run_load_failure (env : Env) (w : World) (d t p : Nat) (start size argn : Int)
    (args : List String) (flags : Int) (hinit : (w.devs d).dev_data ≠ NULL) :
    ((dev_run env w d t p start size argn args flags).1 = - EIO ↔
      ∃ k : Nat, k < size.toNat ∧
        load_err env (w.progs p).path (w.devs d).dev_data (start + k) ≠ 0) ∧
    ((dev_run env w d t p start size argn args flags).1 = 0 ↔
      ∀ k : Nat, k < size.toNat →
        load_err env (w.progs p).path (w.devs d).dev_data (start + k) = 0) ∧
    (∀ k : Nat, k < size.toNat →
      (∀ j : Nat, j < k → load_err env (w.progs p).path (w.devs d).dev_data (start + j) = 0) →
      load_err env (w.progs p).path (w.devs d).dev_data (start + k) ≠ 0 →
      (dev_run env w d t p start size argn args flags).2.trace
        = w.trace
          ++ (List.range size.toNat).map
              (fun j : Nat => Event.store t (start + j) STATUS_SCHEDULED)
          ++ [Event.barrier]
          ++ (List.range (k + 1)).map
              (fun j : Nat => load_event (w.progs p).path (w.devs d).dev_data (start + j))) ∧
    ((∀ k : Nat, k < size.toNat →
        load_err env (w.progs p).path (w.devs d).dev_data (start + k) = 0) →
      (dev_run env w d t p start size argn args flags).2.trace
        = w.trace
          ++ (List.range size.toNat).map
              (fun j : Nat => Event.store t (start + j) STATUS_SCHEDULED)
          ++ [Event.barrier]
          ++ (List.range size.toNat).map
              (fun j : Nat => load_event (w.progs p).path (w.devs d).dev_data (start + j))) ∧
    (∀ j : Nat, start ≤ (j : Int) → (j : Int) < start + size →
      j < (w.teams t).data.length →
      ((dev_run env w d t p start size argn args flags).2.teams t).data[j]?
        = some STATUS_SCHEDULED) := by
  have hrun := dev_run_init env w d t p start size argn args flags hinit
  have hiff := load_eio_iff env (w.progs p).path (w.devs d).dev_data size.toNat start
    ((dev_run_schedule t start size.toNat w).emit Event.barrier)
  have hres := load_result env (w.progs p).path (w.devs d).dev_data size.toNat start
    ((dev_run_schedule t start size.toNat w).emit Event.barrier)
  refine ⟨?_, ?_, ?_, ?_, ?_⟩
  · rw [hrun]; exact hiff
  · rw [hrun]
    constructor
    · intro h0 k hk
      by_contra hne
      have : (dev_run_load env (w.progs p).path (w.devs d).dev_data start size.toNat
          ((dev_run_schedule t start size.toNat w).emit Event.barrier)).1 = - EIO :=
        hiff.mpr ⟨k, hk, hne⟩
      rw [h0] at this
      simp [ EIO] at this
    · intro hall
      rw [load_all_ok env _ _ _ _ _ hall]
  · intro k hk hbefore hfail
    rw [hrun, load_first_fail env _ _ _ _ _ k hk hbefore hfail]
    simp only [dev_run_trace_head, slots_eq_range, List.map_map]
    rfl
  · intro hall
    rw [hrun, load_all_ok env _ _ _ _ _ hall]
    simp only [dev_run_trace_head, slots_eq_range, List.map_map]
    rfl
  · intro j h1 h2 h3
    rw [dev_run_cell env w d t p start size argn args flags hinit j, if_pos]
    refine ⟨h1, ?_, h3⟩
    omega

/-- Witness for C6: range `[0, 4)` of the four-cell team with the load of slot 2
failing: `-EIO`, loads for slots 0, 1, 2 and none for slot 3, all four cells
SCHEDULED; and the same call with every load succeeding returns 0 after four
loads. -/
theorem C6_dev_run_load_failure_witness :
    (dev_run envFail2 world4 1 2 3 0 4 0 [] 0).1 = - EIO ∧
    (dev_run envFail2 world4 1 2 3 0 4 0 [] 0).2.trace
      = [Event.store 2 0 1, Event.store 2 1 1, Event.store 2 2 1, Event.store 2 3 1,
         Event.barrier,
         Event.load "a.elf" 1000 0 0, Event.load "a.elf" 1000 0 1,
         Event.load "a.elf" 1000 0 2] ∧
    ((dev_run envFail2 world4 1 2 3 0 4 0 [] 0).2.teams 2).data = [1, 1, 1, 1] ∧
    (dev_run envOK world4 1 2 3 0 4 0 [] 0).1 = 0 ∧
    (dev_run envOK world4 1 2 3 0 4 0 [] 0).2.trace
      = [Event.store 2 0 1, Event.store 2 1 1, Event.store 2 2 1, Event.store 2 3 1,
         Event.barrier,
         Event.load "a.elf" 1000 0 0, Event.load "a.elf" 1000 0 1,
         Event.load "a.elf" 1000 0 2, Event.load "a.elf" 1000 0 3] ∧
    ((dev_run envFail2 world4 1 2 3 0 4 0 [] 0).1 = - EIO ↔
      ∃ k : Nat, k < (4 : Int).toNat ∧
        load_err envFail2 (world4.progs 3).path (world4.devs 1).dev_data (0 + k) ≠ 0) :=
  ⟨by decide, by decide, by decide, by decide, by decide,
    (C6_dev_run_load_failure envFail2 world4 1 2 3 0 4 0 [] 0 (by decide)).1⟩

/-! ## dev_wait -/

theorem scan_true_iff (status : Nat → Nat) (n : Nat) : ∀ (i : Nat) (b : Bool),
    dev_wait_scan status i n b = true ↔
      b = true ∨ ∃ k : Nat, k < n ∧
        (status (i + k) = STATUS_SCHEDULED ∨ status (i + k) = STATUS_RUNNING) := by
  induction n with
  | zero => intro i b; simp [dev_wait_scan]
  | succ n ih =>
    intro i b
    simp only [dev_wait_scan]
    split
    · rename_i h
      rw [ih]
      constructor
      · intro _; exact Or.inr ⟨0, Nat.succ_pos n, by simpa using h⟩
      · intro _; exact Or.inl rfl
    · rename_i h
      rw [ih]
      constructor
      · rintro (hb | ⟨k, hk, hp⟩)
        · exact Or.inl hb
        · refine Or.inr ⟨k + 1, Nat.succ_lt_succ hk, ?_⟩
          have e : i + (k + 1) = i + 1 + k := by omega
          rw [e]; exact hp
      · rintro (hb | ⟨k, hk, hp⟩)
        · exact Or.inl hb
        · cases k with
          | zero => exact absurd (by simpa using hp) h
          | succ k =>
            refine Or.inr ⟨k, Nat.lt_of_succ_lt_succ hk, ?_⟩
            have e : i + 1 + k = i + (k + 1) := by omega
            rw [e]; exact hp

/-- The scan of one snapshot says "wait" exactly when the snapshot is pending. -/
theorem scan_iff_pending (status : Nat → Nat) :
    dev_wait_scan status 0 16 false = true ↔ pending status := by
  rw [scan_true_iff]
  simp [pending]

theorem loop_resolved (env : Env) (data : Nat) (fuel : Nat) (w : World)
    (h : ¬ pending (env.e_read data w.reads)) :
    dev_wait_loop env data (fuel + 1) w = some (w.polled data) := by
  have hs : dev_wait_scan (env.e_read data w.reads) 0 16 false = false := by
    rw [← Bool.not_eq_true, scan_iff_pending]; exact h
  simp [dev_wait_loop, hs, World.polled, World.emit]

theorem loop_pending (env : Env) (data : Nat) (fuel : Nat) (w : World)
    (h : pending (env.e_read data w.reads)) :
    dev_wait_loop env data (fuel + 1) w
      = dev_wait_loop env data fuel ((w.polled data).emit (Event.usleep 1000)) := by
  have hs : dev_wait_scan (env.e_read data w.reads) 0 16 false = true :=
    (scan_iff_pending _).mpr h
  simp [dev_wait_loop, hs, World.polled, World.emit]

theorem loop_stuck (env : Env) (data : Nat) (fuel : Nat) : ∀ w : World,
    (∀ k : Nat, w.reads ≤ k → pending (env.e_read data k)) →
    dev_wait_loop env data fuel w = none := by
  induction fuel with
  | zero => intro w _; rfl
  | succ fuel ih =>
    intro w h
    rw [loop_pending env data fuel w (h _ (Nat.le_refl _))]
    apply ih
    intro k hk
    apply h
    simp only [emit_reads, World.polled] at hk
    omega

theorem dev_wait_zero (env : Env) (fuel : Nat) (w : World) (d t : Nat) (r : Int × World)
    (h : dev_wait env fuel w d t = some r) : r.1 = 0 := by
  simp only [dev_wait] at h
  cases hl : dev_wait_loop env (w.devs d).dev_data fuel w with
  | none => rw [hl] at h; simp at h
  | some w1 =>
    rw [hl] at h
    simp only [Option.some.injEq] at h
    rw [← h]

theorem dev_wait_resolved (env : Env) (fuel : Nat) (w : World) (d t : Nat)
    (h : ¬ pending (env.e_read (w.devs d).dev_data w.reads)) :
    dev_wait env (fuel + 1) w d t = some (0, w.polled (w.devs d).dev_data) := by
  simp [dev_wait, loop_resolved env _ fuel w h]

theorem not_pending_of_done (status : Nat → Nat) (h : ∀ i : Nat, i < 16 → status i = STATUS_DONE) :
    ¬ pending status := by
  rintro ⟨i, hi, hp⟩
  rw [h i hi] at hp
  simp [STATUS_DONE, STATUS_SCHEDULED, STATUS_RUNNING] at hp

/-- C8 (the code on a stuck team): when at every poll some polled cell is still
SCHEDULED or RUNNING, `dev_wait` does not return, whatever the fuel: the loop
has no bound and no timeout result. -/
theorem C8_wait_never_returns_when_stuck (env : Env) (w : World) (d t : Nat)
    (hstuck : ∀ k : Nat, w.reads ≤ k → pending (env.e_read (w.devs d).dev_data k)) :
    ∀ fuel : Nat, dev_wait env fuel w d t = none := by
  intro fuel
  simp [dev_wait, loop_stuck env (w.devs d).dev_data fuel w hstuck]

/-- Witness for C8: cell 0 of the control block stays RUNNING at every poll. -/
theorem C8_wait_never_returns_when_stuck_witness :
    (∀ k : Nat, world4.reads ≤ k → pending (envStuck.e_read (world4.devs 1).dev_data k)) ∧
    ∀ fuel : Nat, dev_wait envStuck fuel world4 1 2 = none :=
  ⟨fun _ _ => ⟨0, by decide, Or.inr rfl⟩,
    C8_wait_never_returns_when_stuck envStuck world4 1 2
      (fun _ _ => ⟨0, by decide, Or.inr rfl⟩)⟩

/-- C9 (counterexample): a poll that finds cell 1 holding the fault code 4 (none of
IDLE, SCHEDULED, RUNNING, DONE) and the other cells DONE makes `dev_wait` stop
polling and return 0, the success value. -/
theorem C9_wait_fault_cell_returns_success :
    envFault.e_read (world4.devs 1).dev_data world4.reads 1 = 4 ∧
    (4 ≠ STATUS_NONE ∧ 4 ≠ STATUS_SCHEDULED ∧ 4 ≠ STATUS_RUNNING ∧ 4 ≠ STATUS_DONE) ∧
    (dev_wait envFault 1 world4 1 2).map (fun r => (r.1, r.2.reads, r.2.trace))
      = some (0, 1, [Event.read 1000]) := by
  decide

/-- C9 (amended): `dev_wait` counts a cell in any state other than SCHEDULED and
RUNNING as resolved (the code has no ERROR state; such a value falls under
`default`): when no polled cell is SCHEDULED or RUNNING it stops at that poll
and returns 0, whatever else the cells hold; and 0 is the only value it ever
returns. -/
theorem C9_wait_returns_zero_whatever_cells (env : Env) (fuel : Nat) (w : World) (d t : Nat)
    (hres : ∀ i : Nat, i < 16 →
      env.e_read (w.devs d).dev_data w.reads i ≠ STATUS_SCHEDULED ∧
      env.e_read (w.devs d).dev_data w.reads i ≠ STATUS_RUNNING) :
    dev_wait env (fuel + 1) w d t = some (0, w.polled (w.devs d).dev_data) ∧
    ∀ (fuel2 : Nat) (w2 : World) (d2 t2 : Nat) (r : Int × World),
      dev_wait env fuel2 w2 d2 t2 = some r → r.1 = 0 := by
  constructor
  · apply dev_wait_resolved
    rintro ⟨i, hi, hp⟩
    rcases hp with hp | hp
    · exact (hres i hi).1 hp
    · exact (hres i hi).2 hp
  · intro fuel2 w2 d2 t2 r h
    exact dev_wait_zero env fuel2 w2 d2 t2 r h

/-- Witness for C9 (amended): the poll with the fault code 4 in cell 1. -/
theorem C9_wait_returns_zero_whatever_cells_witness :
    (∀ i : Nat, i < 16 →
      envFault.e_read (world4.devs 1).dev_data world4.reads i ≠ STATUS_SCHEDULED ∧
      envFault.e_read (world4.devs 1).dev_data world4.reads i ≠ STATUS_RUNNING) ∧
    dev_wait envFault (0 + 1) world4 1 2 = some (0, world4.polled (world4.devs 1).dev_data) :=
  ⟨by decide,
    (C9_wait_returns_zero_whatever_cells envFault 0 world4 1 2 (by decide)).1⟩

/-- C10: `dev_query` leaves the world as it found it and returns
* `-EINVAL` when the device pointer is `NULL`;
* otherwise `P_DEV_PTHREADS` for `P_PROP_TYPE`, 1 for `P_PROP_TOPOLOGY`, 1 for
  `P_PROP_SIMD`, `-ENOSYS` for `P_PROP_MEMARCH` and for `P_PROP_WHOAMI`, and `-EINVAL`
  for every property id that is none of the six case labels;
and `-ENOSYS` is not `-EINVAL`. The case labels are pairwise different, as C
requires of a `switch`. -/
theorem C10_dev_query (env : Env) (w : World) (d : Nat) (property : Int)
    (hlabels : env.props.distinct) :
    (dev_query env w d property).2 = w ∧
    (d = NULL → (dev_query env w d property).1 = - EINVAL) ∧
    (d ≠ NULL →
      (property = env.props.P_PROP_TYPE →
        (dev_query env w d property).1 = env.props.P_DEV_PTHREADS) ∧
      (property = env.props.P_PROP_TOPOLOGY → (dev_query env w d property).1 = 1) ∧
      (property = env.props.P_PROP_SIMD → (dev_query env w d property).1 = 1) ∧
      (property = env.props.P_PROP_MEMARCH → (dev_query env w d property).1 = - ENOSYS) ∧
      (property = env.props.P_PROP_WHOAMI → (dev_query env w d property).1 = - ENOSYS) ∧
      (property ∉ [env.props.P_PROP_TYPE, env.props.P_PROP_NODES, env.props.P_PROP_TOPOLOGY,
          env.props.P_PROP_SIMD, env.props.P_PROP_MEMARCH, env.props.P_PROP_WHOAMI] →
        (dev_query env w d property).1 = - EINVAL)) ∧
    - ENOSYS ≠ - EINVAL := by
  have hro : (dev_query env w d property).2 = w := by
    unfold dev_query
    repeat' split
    all_goals rfl
  simp only [Props.distinct, List.nodup_cons, List.mem_cons, List.mem_singleton, not_or,
    List.not_mem_nil, not_false_eq_true, List.nodup_nil, and_true] at hlabels
  obtain ⟨⟨h12, h13, h14, h15, h16⟩, ⟨h23, h24, h25, h26⟩, ⟨h34, h35, h36⟩, ⟨h45, h46⟩, h56⟩ :=
    hlabels
  refine ⟨hro, ?_, ?_, by simp [ENOSYS, EINVAL]⟩
  · intro hd
    simp [dev_query, hd]
  · intro hd
    refine ⟨?_, ?_, ?_, ?_, ?_, ?_⟩
    · intro hp
      simp [dev_query, hd, hp]
    · intro hp
      simp [dev_query, hd, hp, Ne.symm h13, Ne.symm h23]
    · intro hp
      simp [dev_query, hd, hp, Ne.symm h14, Ne.symm h24, Ne.symm h34]
    · intro hp
      simp [dev_query, hd, hp, Ne.symm h15, Ne.symm h25, Ne.symm h35, Ne.symm h45]
    · intro hp
      simp [dev_query, hd, hp, Ne.symm h16, Ne.symm h26, Ne.symm h36, Ne.symm h46]
    · intro hp
      simp only [List.mem_cons, List.mem_singleton, not_or, List.not_mem_nil,
        not_false_eq_true, and_true] at hp
      obtain ⟨p1, p2, p3, p4, p5, p6⟩ := hp
      simp [dev_query, hd, p1, p2, p3, p4, p5, p6]

/-- Witness for C10: the property ids of `envOK` on the device at address 1. -/
theorem C10_dev_query_witness :
    envOK.props.distinct ∧
    (dev_query envOK world4 1 envOK.props.P_PROP_TYPE).1 = envOK.props.P_DEV_PTHREADS ∧
    (dev_query envOK world4 1 envOK.props.P_PROP_TOPOLOGY).1 = 1 ∧
    (dev_query envOK world4 1 envOK.props.P_PROP_SIMD).1 = 1 ∧
    (dev_query envOK world4 1 envOK.props.P_PROP_MEMARCH).1 = -38 ∧
    (dev_query envOK world4 1 envOK.props.P_PROP_WHOAMI).1 = -38 ∧
    (dev_query envOK world4 1 99).1 = -22 ∧
    (dev_query envOK world4 0 envOK.props.P_PROP_TYPE).1 = -22 ∧
    (dev_query envOK world4 1 envOK.props.P_PROP_TOPOLOGY).2 = world4 :=
  ⟨by decide, by decide, by decide, by decide, by decide, by decide, by decide, by decide,
    (C10_dev_query envOK world4 1 envOK.props.P_PROP_TOPOLOGY (by decide)).1⟩

/-! ## dev_init and dev_fini -/

theorem dev_fini_null (w : World) (d : Nat) (h : (w.devs d).dev_data = NULL) :
    dev_fini w d = w := by
  simp [dev_fini, h]

theorem dev_fini_data (w : World) (d : Nat) :
    ((dev_fini w d).devs d).dev_data = NULL := by
  by_cases h : (w.devs d).dev_data = NULL
  · rw [dev_fini_null w d h]; exact h
  · simp [dev_fini, h]

theorem dev_fini_frame (w : World) (d : Nat) :
    (dev_fini w d).teams = w.teams ∧ (dev_fini w d).progs = w.progs ∧
    (dev_fini w d).reads = w.reads ∧
    ∀ u : Nat, u ≠ d → (dev_fini w d).devs u = w.devs u := by
  by_cases h : (w.devs d).dev_data = NULL
  · rw [dev_fini_null w d h]; exact ⟨rfl, rfl, rfl, fun _ _ => rfl⟩
  · refine ⟨by simp [dev_fini, h], by simp [dev_fini, h], by simp [dev_fini, h], ?_⟩
    intro u hu
    simp [dev_fini, h, Function.update_noteq hu]

theorem dev_fini_trace (w : World) (d : Nat) (h : (w.devs d).dev_data ≠ NULL) :
    (dev_fini w d).trace = w.trace ++ [Event.free (w.devs d).dev_data] := by
  simp [dev_fini, h]

/-- On a device without backend data `dev_init` stores the value of its
never-assigned local into `dev_data` and does nothing else. -/
theorem dev_init_null (env : Env) (w : World) (d : Nat) (flags : Int)
    (h : (w.devs d).dev_data = NULL) :
    (dev_init env w d flags).1 = d ∧
    ((dev_init env w d flags).2.devs d).dev_data = env.uninit ∧
    (dev_init env w d flags).2.trace = w.trace ∧
    (dev_init env w d flags).2.teams = w.teams := by
  simp [dev_init, h]

/-- C11: `dev_fini` is safe to repeat. On a device without backend data it changes
nothing and frees nothing; on a device with backend data it frees that data
once (one `free` in the log) and sets `dev_data` to `NULL`, leaving teams,
programs and the other devices alone; so for every state a second `dev_fini`
right after the first changes nothing more: the state is that of a single
`dev_fini` and the log has grown by at most the one `free`. -/
theorem C11_dev_fini_twice (w : World) (d : Nat) :
    ((w.devs d).dev_data = NULL → dev_fini w d = w) ∧
    ((w.devs d).dev_data ≠ NULL →
      (dev_fini w d).trace = w.trace ++ [Event.free (w.devs d).dev_data]) ∧
    ((dev_fini w d).devs d).dev_data = NULL ∧
    ((dev_fini w d).teams = w.teams ∧ (dev_fini w d).progs = w.progs ∧
      ∀ u : Nat, u ≠ d → (dev_fini w d).devs u = w.devs u) ∧
    dev_fini (dev_fini w d) d = dev_fini w d ∧
    ((dev_fini (dev_fini w d) d).trace = w.trace ∨
      (dev_fini (dev_fini w d) d).trace = w.trace ++ [Event.free (w.devs d).dev_data]) := by
  have h2 : dev_fini (dev_fini w d) d = dev_fini w d :=
    dev_fini_null (dev_fini w d) d (dev_fini_data w d)
  refine ⟨dev_fini_null w d, dev_fini_trace w d, dev_fini_data w d,
    ⟨(dev_fini_frame w d).1, (dev_fini_frame w d).2.1, (dev_fini_frame w d).2.2.2⟩, h2, ?_⟩
  rw [h2]
  by_cases h : (w.devs d).dev_data = NULL
  · left; rw [dev_fini_null w d h]
  · right; exact dev_fini_trace w d h

/-- Witness for C11: closing the initialized device of `world4` once and twice, and
closing the device of `worldClosed`. -/
theorem C11_dev_fini_twice_witness :
    (world4.devs 1).dev_data = 1000 ∧
    (dev_fini world4 1).trace = [Event.free 1000] ∧
    (dev_fini (dev_fini world4 1) 1).trace = [Event.free 1000] ∧
    (worldClosed.devs 1).dev_data = NULL ∧
    (dev_fini worldClosed 1).trace = [] ∧
    dev_fini (dev_fini world4 1) 1 = dev_fini world4 1 :=
  ⟨by decide, by decide, by decide, by decide, by decide,
    (C11_dev_fini_twice world4 1).2.2.2.2.1⟩

/-- C12 (the code at the failing input): on a device without backend data
`dev_init` allocates nothing and stores its never-assigned local `data` into
`dev_data`. When that local holds 0 the device is still without backend data
and the next `dev_run` returns `-EBADF`; when it holds 7 the device points at
storage nobody allocated and the next `dev_fini` frees address 7. -/
theorem C12_dev_init_stores_unassigned_pointer :
    (worldClosed.devs 1).dev_data = NULL ∧
    (envOK.uninit = 0 ∧
      ((dev_init envOK worldClosed 1 0).2.devs 1).dev_data = NULL ∧
      (dev_run envOK (dev_init envOK worldClosed 1 0).2 1 2 3 0 4 0 [] 0).1 = - EBADF) ∧
    (envJunk.uninit = 7 ∧
      ((dev_init envJunk worldClosed 1 0).2.devs 1).dev_data = 7 ∧
      (dev_init envJunk worldClosed 1 0).2.trace = [] ∧
      (dev_fini (dev_init envJunk worldClosed 1 0).2 1).trace = [Event.free 7]) := by
  decide

/-- C13: on a device whose backend data is already present, `dev_init`, for any
flags, returns the same device pointer and leaves the whole state (`dev_data`,
every other field, every other object, the log) as it was. -/
theorem C13_dev_init_idempotent (env : Env) (w : World) (d : Nat) (flags : Int)
    (hopen : (w.devs d).dev_data ≠ NULL) :
    dev_init env w d flags = (d, w) ∧
    ((dev_init env w d flags).2.devs d).dev_data = (w.devs d).dev_data ∧
    dev_init env (dev_init env w d flags).2 d flags = (d, w) := by
  have h : dev_init env w d flags = (d, w) := by simp [dev_init, hopen]
  refine ⟨h, by rw [h], ?_⟩
  rw [h]
  exact h

/-- Witness for C13: the initialized device of `world4`, flags 5. -/
theorem C13_dev_init_idempotent_witness :
    (world4.devs 1).dev_data ≠ NULL ∧
    (dev_init envJunk world4 1 5).1 = 1 ∧
    ((dev_init envJunk world4 1 5).2.devs 1).dev_data = 1000 ∧
    dev_init envJunk world4 1 5 = (1, world4) :=
  ⟨by decide, by decide, by decide, (C13_dev_init_idempotent envJunk world4 1 5 (by decide)).1⟩

/-- The load loop adds loads only, for an initial stretch of its slots. -/
theorem load_trace_exists (env : Env) (path : String) (data : Nat) (n : Nat) :
    ∀ (i : Int) (w : World), ∃ m : Nat, m ≤ n ∧
      (dev_run_load env path data i n w).2.trace
        = w.trace ++ (slots i m).map (load_event path data) := by
  induction n with
  | zero => intro i w; exact ⟨0, Nat.le_refl 0, by simp [dev_run_load, slots]⟩
  | succ n ih =>
    intro i w
    simp only [dev_run_load]
    split
    · exact ⟨1, by omega, by simp [slots, load_event]⟩
    · obtain ⟨m, hm, ht⟩ := ih (i + 1) (w.emit (Event.load path data (Int.tdiv i 4) (Int.tmod i 4)))
      refine ⟨m + 1, by omega, ?_⟩
      rw [ht]
      simp [slots, load_event]

/-- The log of `dev_run` on a device with backend data: the stores of all
targeted slots, the barrier, then the loads of an initial stretch of the
slots. -/
theorem dev_run_trace (env : Env) (w : World) (d t p : Nat) (start size argn : Int)
    (args : List String) (flags : Int) (hinit : (w.devs d).dev_data ≠ NULL) :
    ∃ m : Nat, m ≤ size.toNat ∧
      (dev_run env w d t p start size argn args flags).2.trace
        = w.trace
          ++ ((List.range size.toNat).map
              (fun j : Nat => Event.store t (start + j) STATUS_SCHEDULED)
            ++ [Event.barrier]
            ++ (List.range m).map
              (fun j : Nat => load_event (w.progs p).path (w.devs d).dev_data (start + j))) := by
  rw [dev_run_init env w d t p start size argn args flags hinit]
  obtain ⟨m, hm, ht⟩ := load_trace_exists env (w.progs p).path (w.devs d).dev_data size.toNat
    start ((dev_run_schedule t start size.toNat w).emit Event.barrier)
  refine ⟨m, hm, ?_⟩
  rw [ht, dev_run_trace_head, slots_eq_range]
  simp [List.map_map, Function.comp]

/-- C14: on a device with backend data, what `dev_run` adds to the log is, in this
order, the `STATUS_SCHEDULED` store of every targeted slot, one barrier, and
then loads only (one per slot, for an initial stretch of the slots). So
wherever a load stands in the added part, the barrier and the stores of all
targeted slots stand before it. -/
theorem C14_dev_run_stores_barrier_loads (env : Env) (w : World) (d t p : Nat)
    (start size argn : Int) (args : List String) (flags : Int)
    (hinit : (w.devs d).dev_data ≠ NULL) :
    (∃ m : Nat, m ≤ size.toNat ∧
      (dev_run env w d t p start size argn args flags).2.trace
        = w.trace
          ++ ((List.range size.toNat).map
              (fun j : Nat => Event.store t (start + j) STATUS_SCHEDULED)
            ++ [Event.barrier]
            ++ (List.range m).map
              (fun j : Nat => load_event (w.progs p).path (w.devs d).dev_data (start + j)))) ∧
    (∀ (before after : List Event) (path : String) (data : Nat) (row col : Int),
      (dev_run env w d t p start size argn args flags).2.trace
        = w.trace ++ (before ++ Event.load path data row col :: after) →
      Event.barrier ∈ before ∧
      ∀ k : Nat, k < size.toNat → Event.store t (start + k) STATUS_SCHEDULED ∈ before) := by
  obtain ⟨m, hm, ht⟩ := dev_run_trace env w d t p start size argn args flags hinit
  refine ⟨⟨m, hm, ht⟩, ?_⟩
  intro before after path data row col hsplit
  rw [ht] at hsplit
  have heq := List.append_cancel_left hsplit
  rw [List.append_eq_append_iff] at heq
  have hsub : ∀ e : Event, e ∈ (List.range size.toNat).map
      (fun j : Nat => Event.store t (start + j) STATUS_SCHEDULED) ++ [Event.barrier] →
      e ∈ before := by
    rcases heq with ⟨a, hb, _⟩ | ⟨c, hc, hl⟩
    · intro e he
      rw [hb]
      exact List.mem_append_left _ he
    · cases c with
      | nil =>
        intro e he
        rw [hc] at he
        simpa using he
      | cons x c =>
        exfalso
        have hx : x = Event.load path data row col := by
          simp only [List.cons_append, List.cons.injEq] at hl
          exact hl.1.symm
        have hmem : Event.load path data row col ∈ (List.range size.toNat).map
            (fun j : Nat => Event.store t (start + j) STATUS_SCHEDULED) ++ [Event.barrier] := by
          rw [hc, ← hx]
          simp
        simp at hmem
  refine ⟨hsub _ (by simp), ?_⟩
  intro k hk
  apply hsub
  apply List.mem_append_left
  exact List.mem_map.mpr ⟨k, List.mem_range.mpr hk, rfl⟩

/-- Witness for C14: range `[0, 2)` of the four-cell team. -/
theorem C14_dev_run_stores_barrier_loads_witness :
    (world4.devs 1).dev_data ≠ NULL ∧
    (dev_run envOK world4 1 2 3 0 2 0 [] 0).2.trace
      = [Event.store 2 0 1, Event.store 2 1 1, Event.barrier,
         Event.load "a.elf" 1000 0 0, Event.load "a.elf" 1000 0 1] ∧
    (Event.barrier ∈ [Event.store 2 0 1, Event.store 2 1 1, Event.barrier,
        Event.load "a.elf" 1000 0 0] ∧
      ∀ k : Nat, k < (2 : Int).toNat →
        Event.store 2 ((0 : Int) + k) STATUS_SCHEDULED ∈
          [Event.store 2 0 1, Event.store 2 1 1, Event.barrier, Event.load "a.elf" 1000 0 0]) :=
  ⟨by decide, by decide,
    (C14_dev_run_stores_barrier_loads envOK world4 1 2 3 0 2 0 [] 0 (by decide)).2
      [Event.store 2 0 1, Event.store 2 1 1, Event.barrier, Event.load "a.elf" 1000 0 0] []
      "a.elf" 1000 0 1 (by decide)⟩

theorem wait_rounds_sleeps (data : Nat) (m : Nat) :
    (wait_rounds data m).count (Event.usleep 1000) = m ∧
    (wait_rounds data m).count (Event.read data) = m ∧
    (wait_rounds data m).length = 2 * m ∧
    ∀ us : Nat, Event.usleep us ∈ wait_rounds data m → us = 1000 := by
  induction m with
  | zero => simp [wait_rounds]
  | succ m ih =>
    obtain ⟨h1, h2, h3, h4⟩ := ih
    refine ⟨?_, ?_, ?_, ?_⟩
    · simp [wait_rounds, List.count_cons, h1]
    · simp [wait_rounds, List.count_cons, h2]
    · simp [wait_rounds, h3]; omega
    · intro us hus
      simp only [wait_rounds, List.mem_cons, Event.usleep.injEq] at hus
      rcases hus with hus | hus | hus
      · cases hus
      · exact hus
      · exact h4 us hus

/-- The polling loop over `m` pending snapshots followed by a resolved one. -/
theorem loop_rounds (env : Env) (data : Nat) (m : Nat) : ∀ (w : World) (fuel : Nat),
    (∀ k : Nat, k < m → pending (env.e_read data (w.reads + k))) →
    ¬ pending (env.e_read data (w.reads + m)) →
    m < fuel →
    dev_wait_loop env data fuel w
      = some { w with reads := w.reads + m + 1,
                      trace := w.trace ++ wait_rounds data m ++ [Event.read data] } := by
  induction m with
  | zero =>
    intro w fuel _ hres hf
    obtain ⟨f, rfl⟩ : ∃ f, fuel = f + 1 := ⟨fuel - 1, by omega⟩
    rw [loop_resolved env data f w (by simpa using hres)]
    simp [World.polled, wait_rounds]
  | succ m ih =>
    intro w fuel hpend hres hf
    obtain ⟨f, rfl⟩ : ∃ f, fuel = f + 1 := ⟨fuel - 1, by omega⟩
    rw [loop_pending env data f w (by simpa using hpend 0 (Nat.succ_pos m))]
    rw [ih ((w.polled data).emit (Event.usleep 1000)) f]
    · simp [World.polled, World.emit, wait_rounds]
      omega
    · intro k hk
      have := hpend (k + 1) (Nat.succ_lt_succ hk)
      simp only [emit_reads, World.polled]
      have e : w.reads + 1 + k = w.reads + (k + 1) := by omega
      rw [e]; exact this
    · simp only [emit_reads, World.polled]
      have e : w.reads + 1 + m = w.reads + (m + 1) := by omega
      rw [e]; exact hres
    · omega

/-- With fuel for no more than the pending snapshots the loop has not left. -/
theorem loop_short (env : Env) (data : Nat) (fuel : Nat) : ∀ (w : World) (m : Nat),
    (∀ k : Nat, k < m → pending (env.e_read data (w.reads + k))) →
    fuel ≤ m →
    dev_wait_loop env data fuel w = none := by
  induction fuel with
  | zero => intro w m _ _; rfl
  | succ fuel ih =>
    intro w m hpend hf
    rw [loop_pending env data fuel w (by simpa using hpend 0 (by omega))]
    apply ih _ (m - 1)
    · intro k hk
      have := hpend (k + 1) (by omega)
      simp only [emit_reads, World.polled]
      have e : w.reads + 1 + k = w.reads + (k + 1) := by omega
      rw [e]; exact this
    · omega

/-- C15 (the code at the failing input): `dev_wait` never reads the team's status
cells, it reads `status[0..15]` of the device control block. Right after a
successful `dev_run` over `[0, 4)` the four cells of the team are SCHEDULED,
yet with a control block whose cells read DONE the first poll of `dev_wait`
says "resolved" and it returns 0 without a sleep; and on the very same state
with a control block whose cell 0 reads RUNNING the poll says "pending" and
`dev_wait` is still polling after 5 rounds. -/
theorem C15_wait_reads_control_block_not_team :
    (dev_run envOK world4 1 2 3 0 4 0 [] 0).1 = 0 ∧
    ((dev_run envOK world4 1 2 3 0 4 0 [] 0).2.teams 2).data
      = [STATUS_SCHEDULED, STATUS_SCHEDULED, STATUS_SCHEDULED, STATUS_SCHEDULED] ∧
    dev_wait_scan (envOK.e_read 1000 0) 0 16 false = false ∧
    (dev_wait envOK 1 (dev_run envOK world4 1 2 3 0 4 0 [] 0).2 1 2).map
        (fun r => (r.1, r.2.reads, r.2.trace.count (Event.usleep 1000), (r.2.teams 2).data))
      = some (0, 1, 0, [1, 1, 1, 1]) ∧
    (dev_run envStuck world4 1 2 3 0 4 0 [] 0).2.teams
      = (dev_run envOK world4 1 2 3 0 4 0 [] 0).2.teams ∧
    dev_wait_scan (envStuck.e_read 1000 0) 0 16 false = true ∧
    (dev_wait envStuck 5 (dev_run envStuck world4 1 2 3 0 4 0 [] 0).2 1 2).isNone = true := by
  refine ⟨by decide, by decide, by decide, by decide, ?_, by decide, by decide⟩
  rfl

/-- C16: for every sequence of snapshots that the successive reads of the control
block return:
* the scan of a snapshot says "wait" exactly when one of the sixteen cells it
  reads is SCHEDULED or RUNNING (every other value counts as resolved);
* when the next `m` snapshots are pending and the one after them is not,
  `dev_wait` returns 0 at that snapshot, given fuel for more than `m` rounds,
  after `m + 1` reads, each of the first `m` followed by one `usleep(1000)`:
  the log grows by `m` times (read, sleep) and a last read, so by `m` sleeps;
* with fuel for `m` rounds or fewer it has not left the loop. -/
theorem C16_wait_polls_until_resolved (env : Env) (w : World) (d t : Nat) (m : Nat)
    (hpend : ∀ k : Nat, k < m → pending (env.e_read (w.devs d).dev_data (w.reads + k)))
    (hres : ¬ pending (env.e_read (w.devs d).dev_data (w.reads + m))) :
    (∀ status : Nat → Nat, dev_wait_scan status 0 16 false = true ↔
      ∃ i : Nat, i < 16 ∧ (status i = STATUS_SCHEDULED ∨ status i = STATUS_RUNNING)) ∧
    (∀ fuel : Nat, m < fuel →
      dev_wait env fuel w d t
        = some (0, { w with
            reads := w.reads + m + 1,
            trace := w.trace ++ wait_rounds (w.devs d).dev_data m
              ++ [Event.read (w.devs d).dev_data] })) ∧
    (∀ fuel : Nat, fuel ≤ m → dev_wait env fuel w d t = none) ∧
    (wait_rounds (w.devs d).dev_data m ++ [Event.read (w.devs d).dev_data]).count
        (Event.usleep 1000) = m ∧
    (wait_rounds (w.devs d).dev_data m ++ [Event.read (w.devs d).dev_data]).count
        (Event.read (w.devs d).dev_data) = m + 1 ∧
    (∀ us : Nat,
      Event.usleep us ∈ wait_rounds (w.devs d).dev_data m ++ [Event.read (w.devs d).dev_data] →
      us = 1000) := by
  obtain ⟨c1, c2, _, c4⟩ := wait_rounds_sleeps (w.devs d).dev_data m
  refine ⟨?_, ?_, ?_, ?_, ?_, ?_⟩
  · intro status
    rw [scan_iff_pending]
    rfl
  · intro fuel hf
    simp [dev_wait, loop_rounds env (w.devs d).dev_data m w fuel hpend hres hf]
  · intro fuel hf
    simp [dev_wait, loop_short env (w.devs d).dev_data fuel w m hpend hf]
  · simp [List.count_append, c1]
  · simp [List.count_append, c2]
  · intro us hus
    simp only [List.mem_append, List.mem_singleton] at hus
    rcases hus with hus | hus
    · exact c4 us hus
    · cases hus

/-- Witness for C16: two pending snapshots (cell 5 SCHEDULED, then cell 9 RUNNING)
and then a resolved one: return value 0 after three reads and two sleeps. -/
theorem C16_wait_polls_until_resolved_witness :
    (∀ k : Nat, k < 2 →
      pending (envTwoRounds.e_read (world4.devs 1).dev_data (world4.reads + k))) ∧
    ¬ pending (envTwoRounds.e_read (world4.devs 1).dev_data (world4.reads + 2)) ∧
    (dev_wait envTwoRounds 3 world4 1 2).map (fun r => (r.1, r.2.reads, r.2.trace))
      = some (0, 3, [Event.read 1000, Event.usleep 1000, Event.read 1000, Event.usleep 1000,
          Event.read 1000]) ∧
    (dev_wait envTwoRounds 2 world4 1 2).isNone = true ∧
    ∀ fuel : Nat, 2 < fuel →
      dev_wait envTwoRounds fuel world4 1 2
        = some (0, { world4 with
            reads := world4.reads + 2 + 1,
            trace := world4.trace ++ wait_rounds (world4.devs 1).dev_data 2
              ++ [Event.read (world4.devs 1).dev_data] }) :=
  have hp : ∀ k : Nat, k < 2 →
      pending (envTwoRounds.e_read (world4.devs 1).dev_data (world4.reads + k)) := by
    intro k hk
    rw [← scan_iff_pending]
    interval_cases k <;> decide
  have hr : ¬ pending (envTwoRounds.e_read (world4.devs 1).dev_data (world4.reads + 2)) := by
    rw [← scan_iff_pending]
    decide
  ⟨hp, hr, by decide, by decide,
    (C16_wait_polls_until_resolved envTwoRounds world4 1 2 2 hp hr).2.1⟩

/-- A range with `start < 0` or `size ≤ 0` is turned down by `p_run` before the
backend is looked at. -/
theorem p_run_bad_range (env : Env) (ops : dev_ops) (fuel : Nat) (w : World) (p t : Nat)
    (start size nargs : Int) (args : List String) (flags : Int)
    (h : start < 0 ∨ size ≤ 0) :
    p_run env ops fuel w p t start size nargs args flags = some (- EINVAL, w) := by
  by_cases he : (env.p_ref_is_err p || env.p_ref_is_err t) = true
  · simp [p_run, he]
  · simp [p_run, he, h]

/-- C17: errors found before dispatch leave no trace.
* When `start < 0` or `size ≤ 0`, `p_run` returns `-EINVAL` with the state exactly
  as before, for every backend table and every fuel: neither the backend's
  `run` nor `wait` has been called.
* When the device has no backend data, `dev_run` returns `-EBADF` with the state
  exactly as before: no status store, no barrier, no load, the Status Register
  untouched.
* `p_run` on such a device (valid handles, `0 ≤ start`, `0 < size`) hands that
  `-EBADF` back with the state unchanged, whatever the flags: `wait` is not
  called. -/
theorem C17_errors_before_dispatch_leave_state (env : Env) (ops : dev_ops) (fuel : Nat)
    (w : World) (p t d : Nat) (start size nargs : Int) (args : List String) (flags : Int) :
    ((start < 0 ∨ size ≤ 0) →
      p_run env ops fuel w p t start size nargs args flags = some (- EINVAL, w)) ∧
    ((w.devs d).dev_data = NULL →
      dev_run env w d t p start size nargs args flags = (- EBADF, w)) ∧
    ((w.devs (w.teams t).dev).dev_data = NULL →
      env.p_ref_is_err p = false → env.p_ref_is_err t = false → 0 ≤ start → 0 < size →
      p_run env __pal_dev_pthreads_ops fuel w p t start size nargs args flags
        = some (- EBADF, w)) := by
  refine ⟨p_run_bad_range env ops fuel w p t start size nargs args flags,
    dev_run_uninit env w d t p start size nargs args flags, ?_⟩
  intro hd hp ht h0 h1
  have hr : ¬ (start < 0 ∨ size ≤ 0) := by omega
  simp [p_run, hp, ht, hr, __pal_dev_pthreads_ops,
    dev_run_uninit env w (w.teams t).dev t p start size nargs args flags hd, EBADF]

/-- Witness for C17: `start = -1` and `size = 0` with a backend table that would
log its calls, and a blocking run on a device without backend data. -/
theorem C17_errors_before_dispatch_leave_state_witness :
    (p_run envOK opsMarking 3 world4 3 2 (-1) 2 0 [] 0).map (fun r => (r.1, r.2.trace))
      = some (-22, []) ∧
    (p_run envOK opsMarking 3 world4 3 2 0 0 0 [] 0).map (fun r => (r.1, r.2.trace))
      = some (-22, []) ∧
    (p_run envOK opsMarking 3 world4 3 2 0 2 0 [] 0).map (fun r => (r.1, r.2.trace))
      = some (0, [Event.usleep 7, Event.usleep 9]) ∧
    (dev_run envOK worldClosed 1 2 3 0 2 0 [] 0).1 = -9 ∧
    (dev_run envOK worldClosed 1 2 3 0 2 0 [] 0).2.trace = [] ∧
    ((dev_run envOK worldClosed 1 2 3 0 2 0 [] 0).2.teams 2).data = (worldClosed.teams 2).data ∧
    p_run envOK opsMarking 3 world4 3 2 (-1) 2 0 [] 0 = some (- EINVAL, world4) ∧
    p_run envOK __pal_dev_pthreads_ops 3 worldClosed 3 2 0 2 0 [] 0
      = some (- EBADF, worldClosed) :=
  ⟨by decide, by decide, by decide, by decide, by decide, by decide,
    (C17_errors_before_dispatch_leave_state envOK opsMarking 3 world4 3 2 1 (-1) 2 0 [] 0).1
      (Or.inl (by decide)),
    (C17_errors_before_dispatch_leave_state envOK opsMarking 3 worldClosed 3 2 1 0 2 0 [] 0).2.2
      (by decide) (by decide) (by decide) (by decide) (by decide)⟩

/-- C18 (the code at the failing input): a team opened over the device range
`[4, 6)` and a team opened over `[0, 2)` both have their slot 0 started on core
(row 0, column 0), PE 0; the team at offset 4 should have started PE 4, core
(row 1, column 0). `dev_open` does not keep `start`, and `dev_run` takes the
team-relative `i` itself for `i / 4`, `i % 4`. -/
theorem C18_run_targets_team_index_not_device_pe :
    (dev_open envOK world4 1 5 4 2).2.teams 5 = (dev_open envOK world4 1 5 0 2).2.teams 5 ∧
    ((worldTwoTeams.teams 2).data = [0, 0] ∧ (worldTwoTeams.teams 5).data = [0, 0]) ∧
    (dev_run envOK worldTwoTeams 1 5 3 0 1 0 [] 0).2.trace
      = [Event.store 5 0 1, Event.barrier, Event.load "a.elf" 1000 0 0] ∧
    (Int.tdiv (4 + 0) 4 = 1 ∧ Int.tmod (4 + 0) 4 = 0) ∧
    load_event "a.elf" 1000 (4 + 0) ≠ Event.load "a.elf" 1000 0 0 ∧
    (dev_run envOK worldTwoTeams 1 2 3 0 1 0 [] 0).2.trace
      = [Event.store 2 0 1, Event.barrier, Event.load "a.elf" 1000 0 0] := by
  decide

/-- Cell `j` of the team after `dev_run`, on any device. -/
theorem dev_run_cell_any (env : Env) (w : World) (d t p : Nat) (start size argn : Int)
    (args : List String) (flags : Int) (j : Nat) :
    ((dev_run env w d t p start size argn args flags).2.teams t).data[j]?
      = if (w.devs d).dev_data ≠ NULL ∧ start ≤ (j : Int) ∧ (j : Int) < start + size
            ∧ j < (w.teams t).data.length
        then some STATUS_SCHEDULED else (w.teams t).data[j]? := by
  by_cases hd : (w.devs d).dev_data = NULL
  · rw [dev_run_uninit env w d t p start size argn args flags hd]
    simp [hd]
  · rw [dev_run_cell env w d t p start size argn args flags hd j]
    by_cases hc : start ≤ (j : Int) ∧ (j : Int) < start + size.toNat ∧ j < (w.teams t).data.length
    · rw [if_pos hc, if_pos]
      exact ⟨hd, hc.1, by omega, hc.2.2⟩
    · rw [if_neg hc, if_neg]
      intro h
      exact hc ⟨h.2.1, by omega, h.2.2.2⟩

theorem dev_run_length (env : Env) (w : World) (d t p : Nat) (start size argn : Int)
    (args : List String) (flags : Int) :
    ((dev_run env w d t p start size argn args flags).2.teams t).data.length
      = (w.teams t).data.length := by
  by_cases hd : (w.devs d).dev_data = NULL
  · rw [dev_run_uninit env w d t p start size argn args flags hd]
  · rw [dev_run_init env w d t p start size argn args flags hd, (load_frame _ _ _ _ _ _).2.1]
    simp

theorem dev_run_teams_other (env : Env) (w : World) (d t p : Nat) (start size argn : Int)
    (args : List String) (flags : Int) (u : Nat) (hu : u ≠ t) :
    (dev_run env w d t p start size argn args flags).2.teams u = w.teams u := by
  by_cases hd : (w.devs d).dev_data = NULL
  · rw [dev_run_uninit env w d t p start size argn args flags hd]
  · rw [dev_run_init env w d t p start size argn args flags hd, (load_frame _ _ _ _ _ _).2.1]
    simp [schedule_teams_other t u hu]

theorem dev_run_returns (env : Env) (w : World) (d t p : Nat) (start size argn : Int)
    (args : List String) (flags : Int) :
    (dev_run env w d t p start size argn args flags).1 = 0 ∨
    (dev_run env w d t p start size argn args flags).1 = - EIO ∨
    (dev_run env w d t p start size argn args flags).1 = - EBADF := by
  by_cases hd : (w.devs d).dev_data = NULL
  · rw [dev_run_uninit env w d t p start size argn args flags hd]
    exact Or.inr (Or.inr rfl)
  · rw [dev_run_init env w d t p start size argn args flags hd]
    rcases load_result env (w.progs p).path (w.devs d).dev_data size.toNat start
      ((dev_run_schedule t start size.toNat w).emit Event.barrier) with h | h
    · exact Or.inl h
    · exact Or.inr (Or.inl h)

/-- Every status store that `dev_run` adds to the log is a store of
`STATUS_SCHEDULED` to a slot of the range on the team it was given. -/
theorem dev_run_stores (env : Env) (w : World) (d t p : Nat) (start size argn : Int)
    (args : List String) (flags : Int) (u : Nat) (i : Int) (v : Nat)
    (h : Event.store u i v ∈ (dev_run env w d t p start size argn args flags).2.trace) :
    Event.store u i v ∈ w.trace ∨
      (u = t ∧ v = STATUS_SCHEDULED ∧ start ≤ i ∧ i < start + size) := by
  by_cases hd : (w.devs d).dev_data = NULL
  · rw [dev_run_uninit env w d t p start size argn args flags hd] at h
    exact Or.inl h
  · obtain ⟨m, _, ht⟩ := dev_run_trace env w d t p start size argn args flags hd
    rw [ht] at h
    simp only [List.mem_append, List.mem_map, List.mem_range, List.mem_singleton, load_event]
      at h
    rcases h with h | (⟨k, hk, he⟩ | h) | ⟨k, _, he⟩
    · exact Or.inl h
    · right
      simp only [Event.store.injEq] at he
      obtain ⟨h1, h2, h3⟩ := he
      exact ⟨h1.symm, h3.symm, by omega, by omega⟩
    · cases h
    · cases he

/-- C19 (counterexample): cell 2 of the four-cell team is RUNNING; `dev_run` over
`[0, 4)` returns 0 and leaves that cell SCHEDULED, which is neither RUNNING
(untouched) nor DONE. -/
theorem C19_run_overwrites_running_cell :
    (world4.teams 2).data[2]? = some STATUS_RUNNING ∧
    (dev_run envOK world4 1 2 3 0 4 0 [] 0).1 = 0 ∧
    ((dev_run envOK world4 1 2 3 0 4 0 [] 0).2.teams 2).data[2]? = some STATUS_SCHEDULED ∧
    STATUS_SCHEDULED ≠ STATUS_RUNNING ∧ STATUS_SCHEDULED ≠ STATUS_DONE := by
  decide

/-- C19 (amended): `dev_run` does not look at what a cell holds. For every Status
Register, range and cell `j` holding `v`:
* after `dev_run` the cell holds `v` still or `STATUS_SCHEDULED`, and it has
  changed only if it lies in the range;
* so a cell that held IDLE or DONE and was changed went to SCHEDULED;
* on a device with backend data a targeted cell holds SCHEDULED afterwards
  whatever it held, RUNNING included;
* a cell outside the range, RUNNING or not, keeps its value. -/
theorem C19_run_schedules_whatever_cells_hold (env : Env) (w : World) (d t p : Nat)
    (start size argn : Int) (args : List String) (flags : Int) (j v : Nat)
    (hold : (w.teams t).data[j]? = some v) :
    (((dev_run env w d t p start size argn args flags).2.teams t).data[j]? = some v ∨
      (((dev_run env w d t p start size argn args flags).2.teams t).data[j]?
          = some STATUS_SCHEDULED ∧ start ≤ (j : Int) ∧ (j : Int) < start + size)) ∧
    ((v = STATUS_NONE ∨ v = STATUS_DONE) →
      ((dev_run env w d t p start size argn args flags).2.teams t).data[j]? ≠ some v →
      ((dev_run env w d t p start size argn args flags).2.teams t).data[j]?
        = some STATUS_SCHEDULED) ∧
    ((w.devs d).dev_data ≠ NULL → start ≤ (j : Int) → (j : Int) < start + size →
      ((dev_run env w d t p start size argn args flags).2.teams t).data[j]?
        = some STATUS_SCHEDULED) ∧
    (¬ (start ≤ (j : Int) ∧ (j : Int) < start + size) →
      ((dev_run env w d t p start size argn args flags).2.teams t).data[j]? = some v) := by
  have hlen : j < (w.teams t).data.length := by
    by_contra hge
    have : (w.teams t).data[j]? = none := by
      rw [List.getElem?_eq_none]; omega
    rw [this] at hold
    cases hold
  have hcell := dev_run_cell_any env w d t p start size argn args flags j
  by_cases hc : (w.devs d).dev_data ≠ NULL ∧ start ≤ (j : Int) ∧ (j : Int) < start + size
      ∧ j < (w.teams t).data.length
  · rw [if_pos hc] at hcell
    refine ⟨Or.inr ⟨hcell, hc.2.1, hc.2.2.1⟩, fun _ _ => hcell, fun _ _ _ => hcell, ?_⟩
    intro hout
    exact absurd ⟨hc.2.1, hc.2.2.1⟩ hout
  · rw [if_neg hc, hold] at hcell
    refine ⟨Or.inl hcell, fun _ hne => absurd hcell hne, ?_, fun _ => hcell⟩
    intro hd h1 h2
    exact absurd ⟨hd, h1, h2, hlen⟩ hc

/-- Witness for C19 (amended): cell 1 (DONE) of the four-cell team under a run
over `[0, 2)`, with cell 2 (RUNNING) outside the range. -/
theorem C19_run_schedules_whatever_cells_hold_witness :
    (world4.teams 2).data[1]? = some STATUS_DONE ∧
    ((dev_run envOK world4 1 2 3 0 2 0 [] 0).2.teams 2).data = [1, 1, 2, 0] ∧
    (((dev_run envOK world4 1 2 3 0 2 0 [] 0).2.teams 2).data[1]? = some STATUS_DONE ∨
      (((dev_run envOK world4 1 2 3 0 2 0 [] 0).2.teams 2).data[1]?
          = some STATUS_SCHEDULED ∧ (0 : Int) ≤ ((1 : Nat) : Int) ∧
            ((1 : Nat) : Int) < 0 + 2)) :=
  ⟨by decide, by decide,
    (C19_run_schedules_whatever_cells_hold envOK world4 1 2 3 0 2 0 [] 0 1 STATUS_DONE
      (by decide)).1⟩

/-- C20: the footprint of `dev_run` on the Status Register. For every register,
`start` and `size` (so for `start ≥ 0`, `size > 0`), whatever `dev_run` returns
(0, `-EIO` or `-EBADF`, nothing else):
* the team's register has as many cells as before;
* every cell with an index outside `[start, start + size)` holds what it held;
* a cell that differs from before holds `STATUS_SCHEDULED`;
* every status store added to the log is a store of `STATUS_SCHEDULED` to a slot
  of the range of this team;
* the registers of the other teams are as before. -/
theorem C20_dev_run_footprint (env : Env) (w : World) (d t p : Nat)
    (start size argn : Int) (args : List String) (flags : Int) :
    ((dev_run env w d t p start size argn args flags).1 = 0 ∨
      (dev_run env w d t p start size argn args flags).1 = - EIO ∨
      (dev_run env w d t p start size argn args flags).1 = - EBADF) ∧
    ((dev_run env w d t p start size argn args flags).2.teams t).data.length
      = (w.teams t).data.length ∧
    (∀ j : Nat, ¬ (start ≤ (j : Int) ∧ (j : Int) < start + size) →
      ((dev_run env w d t p start size argn args flags).2.teams t).data[j]?
        = (w.teams t).data[j]?) ∧
    (∀ j : Nat,
      ((dev_run env w d t p start size argn args flags).2.teams t).data[j]?
        ≠ (w.teams t).data[j]? →
      ((dev_run env w d t p start size argn args flags).2.teams t).data[j]?
        = some STATUS_SCHEDULED) ∧
    (∀ (u : Nat) (i : Int) (v : Nat),
      Event.store u i v ∈ (dev_run env w d t p start size argn args flags).2.trace →
      Event.store u i v ∈ w.trace ∨
        (u = t ∧ v = STATUS_SCHEDULED ∧ start ≤ i ∧ i < start + size)) ∧
    (∀ u : Nat, u ≠ t →
      (dev_run env w d t p start size argn args flags).2.teams u = w.teams u) := by
  refine ⟨dev_run_returns env w d t p start size argn args flags,
    dev_run_length env w d t p start size argn args flags, ?_, ?_,
    dev_run_stores env w d t p start size argn args flags,
    dev_run_teams_other env w d t p start size argn args flags⟩
  · intro j hout
    rw [dev_run_cell_any, if_neg]
    intro h
    exact hout ⟨h.2.1, h.2.2.1⟩
  · intro j hne
    rw [dev_run_cell_any] at hne ⊢
    split
    · rfl
    · rename_i hc
      rw [if_neg hc] at hne
      exact absurd rfl hne

/-- Witness for C20: range `[1, 3)` of the four-cell team, once with every load
succeeding and once with the load of slot 2 failing. -/
theorem C20_dev_run_footprint_witness :
    (world4.teams 2).data = [0, 3, 2, 0] ∧
    (dev_run envOK world4 1 2 3 1 2 0 [] 0).1 = 0 ∧
    ((dev_run envOK world4 1 2 3 1 2 0 [] 0).2.teams 2).data = [0, 1, 1, 0] ∧
    (dev_run envFail2 world4 1 2 3 1 2 0 [] 0).1 = - EIO ∧
    ((dev_run envFail2 world4 1 2 3 1 2 0 [] 0).2.teams 2).data = [0, 1, 1, 0] ∧
    ((dev_run envFail2 world4 1 2 3 1 2 0 [] 0).2.teams 2).data.length
      = (world4.teams 2).data.length :=
  ⟨by decide, by decide, by decide, by decide, by decide,
    (C20_dev_run_footprint envFail2 world4 1 2 3 1 2 0 [] 0).2.1⟩

/-- With a pending snapshot at every poll from now on, `dev_wait` has not
returned, whatever the fuel. -/
theorem dev_wait_stuck (env : Env) (w : World) (d t : Nat)
    (h : ∀ k : Nat, w.reads ≤ k → pending (env.e_read (w.devs d).dev_data k)) (fuel : Nat) :
    dev_wait env fuel w d t = none := by
  simp [dev_wait, loop_stuck env (w.devs d).dev_data fuel w h]

theorem dev_open_data (env : Env) (w : World) (d t : Nat) (start count : Int) :
    ((dev_open env w d t start count).2.teams t).data = calloc env count := by
  simp [dev_open]

/-- C2 (counterexample): with `count = 3 > 0` and an allocator without memory,
`dev_open` returns the team with `team->data` `NULL`, no cell at all; likewise
for `count = 2147483647` on a 32-bit `size_t`, where `count * 4` bytes are beyond
`SIZE_MAX`. -/
theorem C2_dev_open_failed_allocation :
    ((0 : Int) < 3 ∧ envNoMem.calloc_ok 3 = false ∧
      (dev_open envNoMem world4 1 2 5 3).1 = 2 ∧
      ((dev_open envNoMem world4 1 2 5 3).2.teams 2).data = [] ∧
      ((dev_open envNoMem world4 1 2 5 3).2.teams 2).data.length ≠ 3) ∧
    ((0 : Int) < 2147483647 ∧ ¬ ((2147483647 : Int) * 4 ≤ (envOK.size_max : Int)) ∧
      (dev_open envOK world4 1 2 0 2147483647).1 = 2 ∧
      ((dev_open envOK world4 1 2 0 2147483647).2.teams 2).data = []) := by
  decide

/-- C2 (amended): for every `count > 0` and every `start`, when the `calloc` of the
member array succeeds, `dev_open` returns the team it was given, whose Status
Register now has exactly `count` cells, each of them `STATUS_NONE` (IDLE, 0),
and whose device pointer is the device it was opened on. -/
theorem C2_dev_open_all_idle_when_allocated (env : Env) (w : World) (d t : Nat)
    (start count : Int) (hcount : 0 < count) (halloc : calloc_succeeds env count) :
    (dev_open env w d t start count).1 = t ∧
    ((((dev_open env w d t start count).2.teams t).data.length : Nat) : Int) = count ∧
    (∀ c ∈ ((dev_open env w d t start count).2.teams t).data, c = STATUS_NONE) ∧
    (∀ i : Nat, (i : Int) < count →
      ((dev_open env w d t start count).2.teams t).data[i]? = some STATUS_NONE) ∧
    STATUS_NONE = 0 ∧
    ((dev_open env w d t start count).2.teams t).dev = d := by
  have hdata : ((dev_open env w d t start count).2.teams t).data
      = List.replicate count.toNat STATUS_NONE := by
    rw [dev_open_data]
    simp [calloc, halloc, STATUS_NONE]
  refine ⟨rfl, ?_, ?_, ?_, rfl, ?_⟩
  · rw [hdata, List.length_replicate]; omega
  · intro c hc
    rw [hdata] at hc
    exact List.eq_of_mem_replicate hc
  · intro i hi
    rw [hdata, List.getElem?_replicate]
    rw [if_pos (by omega)]
  · simp [dev_open]

/-- Witness for C2 (amended): a team of 3 members opened at offset 5 over stale
cells, the allocation succeeding. -/
theorem C2_dev_open_all_idle_when_allocated_witness :
    calloc_succeeds envOK 3 ∧
    ((dev_open envOK world4 1 2 5 3).2.teams 2).data = [0, 0, 0] ∧
    ((dev_open envOK world4 1 2 5 3).1 = 2 ∧
    ((((dev_open envOK world4 1 2 5 3).2.teams 2).data.length : Nat) : Int) = 3 ∧
    (∀ c ∈ ((dev_open envOK world4 1 2 5 3).2.teams 2).data, c = STATUS_NONE) ∧
    (∀ i : Nat, (i : Int) < 3 →
      ((dev_open envOK world4 1 2 5 3).2.teams 2).data[i]? = some STATUS_NONE) ∧
    STATUS_NONE = 0 ∧
    ((dev_open envOK world4 1 2 5 3).2.teams 2).dev = 1) :=
  ⟨by decide, by decide,
    C2_dev_open_all_idle_when_allocated envOK world4 1 2 5 3 (by decide) (by decide)⟩

/-- C5 (counterexample): on a device that reports 4 PEs, with every allocation
succeeding, `dev_open` with `start + count = 5` returns the (valid) team handle
with a five-cell register, with `start = -1` it returns the team with a
two-cell register, and with `count = 0` it still returns the team handle; no
call yields an error. -/
theorem C5_dev_open_rejects_nothing :
    (dev_query envOK world4 1 envOK.props.P_PROP_NODES).1 = 4 ∧
    envOK.p_ref_is_err 2 = false ∧
    ((0 : Int) + 5 > 4 ∧ (dev_open envOK world4 1 2 0 5).1 = 2 ∧
      ((dev_open envOK world4 1 2 0 5).2.teams 2).data = [0, 0, 0, 0, 0]) ∧
    ((-1 : Int) < 0 ∧ (dev_open envOK world4 1 2 (-1) 2).1 = 2 ∧
      ((dev_open envOK world4 1 2 (-1) 2).2.teams 2).data = [0, 0]) ∧
    ((0 : Int) ≤ 0 ∧ (dev_open envOK world4 1 2 0 0).1 = 2 ∧
      ((dev_open envOK world4 1 2 0 0).2.teams 2).dev = 1) := by
  decide

/-- C5 (amended): `dev_open` validates nothing and has no failure result. For
every device, `start` and `count` it returns the team pointer it was given,
with the device pointer set to the device; the register is what
`calloc(count, ...)` gave, stored unchecked: `count` cells, all `STATUS_NONE`,
when that allocation succeeds, and no cell (`NULL`) when it fails, as it does
for every negative `count`. Devices, programs, other teams and the log are left
as they were. -/
theorem C5_dev_open_always_returns_team (env : Env) (w : World) (d t : Nat)
    (start count : Int) :
    (dev_open env w d t start count).1 = t ∧
    ((dev_open env w d t start count).2.teams t).dev = d ∧
    (calloc_succeeds env count →
      ((dev_open env w d t start count).2.teams t).data
        = List.replicate count.toNat STATUS_NONE) ∧
    (¬ calloc_succeeds env count →
      ((dev_open env w d t start count).2.teams t).data = []) ∧
    (count < 0 → ((dev_open env w d t start count).2.teams t).data = []) ∧
    (∀ u : Nat, u ≠ t → (dev_open env w d t start count).2.teams u = w.teams u) ∧
    (dev_open env w d t start count).2.devs = w.devs ∧
    (dev_open env w d t start count).2.progs = w.progs ∧
    (dev_open env w d t start count).2.trace = w.trace := by
  refine ⟨rfl, by simp [dev_open], ?_, ?_, ?_, ?_, rfl, rfl, rfl⟩
  · intro h
    rw [dev_open_data]
    simp [calloc, h, STATUS_NONE]
  · intro h
    rw [dev_open_data]
    simp [calloc, h]
  · intro h
    rw [dev_open_data]
    have hn : ¬ calloc_succeeds env count := by
      intro hs
      have := hs.1
      omega
    simp [calloc, hn]
  · intro u hu
    simp [dev_open, Function.update_noteq hu]

/-- Witness for C5 (amended): an open beyond the capacity with memory at hand, and
opens without memory and with a negative count. -/
theorem C5_dev_open_always_returns_team_witness :
    calloc_succeeds envOK 5 ∧ ¬ calloc_succeeds envNoMem 5 ∧
    ((dev_open envNoMem world4 1 2 0 5).2.teams 2).data = [] ∧
    ((dev_open envOK world4 1 2 0 (-3)).2.teams 2).data = [] ∧
    ((dev_open envOK world4 1 2 0 5).2.teams 2).data = List.replicate (5 : Int).toNat STATUS_NONE :=
  ⟨by decide, by decide, by decide, by decide,
    (C5_dev_open_always_returns_team envOK world4 1 2 0 5).2.2.1 (by decide)⟩

/-- C7 (the code at the failing input): on a team whose four cells are all DONE,
`dev_wait` does not return as long as cell 0 of the device control block reads
RUNNING: it never looks at the team's cells. With that control block it has
not returned for any fuel, let alone after a single poll. -/
theorem C7_wait_on_done_team_never_returns :
    (worldDone.teams 2).data = [STATUS_DONE, STATUS_DONE, STATUS_DONE, STATUS_DONE] ∧
    (∀ k : Nat, envStuck.e_read (worldDone.devs 1).dev_data k 0 = STATUS_RUNNING) ∧
    (dev_wait envStuck 1 worldDone 1 2).isNone = true ∧
    ∀ fuel : Nat, dev_wait envStuck fuel worldDone 1 2 = none :=
  ⟨by decide, fun _ => rfl, by decide,
    dev_wait_stuck envStuck worldDone 1 2 (fun _ _ => ⟨0, by decide, Or.inr rfl⟩)⟩

/-- The value of `p_run` on the pthreads table, as one expression. -/
theorem p_run_eq (env : Env) (fuel : Nat) (w : World) (p t : Nat)
    (start size nargs : Int) (args : List String) (flags : Int) :
    p_run env __pal_dev_pthreads_ops fuel w p t start size nargs args flags
      = if (env.p_ref_is_err p || env.p_ref_is_err t) = true ∨ start < 0 ∨ size ≤ 0 then
          some (- EINVAL, w)
        else if (dev_run env w (w.teams t).dev t p start size nargs args 0).1 ≠ 0 then
          some (dev_run env w (w.teams t).dev t p start size nargs args 0)
        else if Int.land flags 1 = 0 then
          p_wait env __pal_dev_pthreads_ops fuel
            (dev_run env w (w.teams t).dev t p start size nargs args 0).2 t
        else some (0, (dev_run env w (w.teams t).dev t p start size nargs args 0).2) := by
  have hfl : dev_run env w (w.teams t).dev t p start size nargs args flags
      = dev_run env w (w.teams t).dev t p start size nargs args 0 := rfl
  by_cases he : (env.p_ref_is_err p || env.p_ref_is_err t) = true
  · simp [p_run, he]
  by_cases hr : start < 0 ∨ size ≤ 0
  · simp [p_run, he, hr]
  by_cases hz : (dev_run env w (w.teams t).dev t p start size nargs args 0).1 = 0
  · simp [p_run, he, hr, __pal_dev_pthreads_ops, hfl, hz]
  · simp [p_run, he, hr, __pal_dev_pthreads_ops, hfl, hz]

/-- C3 (counterexample): the load of slot 2 fails and cell 0 of the control block
stays RUNNING. `p_run` with flags 0 (blocking) over `[0, 4)` returns `-EIO` at
once, without a single poll; `p_run` with flags 1 (NonBlocking) returns `-EIO`
too, and the `p_wait` that follows it has not returned after 50 rounds, nor for
any other fuel. With the control block reading DONE instead, both return `-EIO`
with the same status cells, the composite after one poll more. -/
theorem C3_failed_run_is_not_followed_by_wait :
    (p_run envFail2Stuck __pal_dev_pthreads_ops 50 world4 3 2 0 4 0 [] 0).map
        (fun r => (r.1, r.2.reads, (r.2.teams 2).data)) = some (- EIO, 0, [1, 1, 1, 1]) ∧
    (p_run envFail2Stuck __pal_dev_pthreads_ops 50 world4 3 2 0 4 0 [] 1).map
        (fun r => (r.1, r.2.reads, (r.2.teams 2).data)) = some (- EIO, 0, [1, 1, 1, 1]) ∧
    (run_nonblocking_then_wait envFail2Stuck __pal_dev_pthreads_ops 50 world4 3 2 0 4 0 [] 1).isNone
      = true ∧
    (∀ fuel : Nat,
      run_nonblocking_then_wait envFail2Stuck __pal_dev_pthreads_ops fuel world4 3 2 0 4 0 [] 1
        = none) ∧
    (p_run envFail2 __pal_dev_pthreads_ops 50 world4 3 2 0 4 0 [] 0).map
        (fun r => (r.1, r.2.reads, (r.2.teams 2).data)) = some (- EIO, 0, [1, 1, 1, 1]) ∧
    (run_nonblocking_then_wait envFail2 __pal_dev_pthreads_ops 50 world4 3 2 0 4 0 [] 1).map
        (fun r => (r.1, r.2.reads, (r.2.teams 2).data)) = some (- EIO, 1, [1, 1, 1, 1]) := by
  refine ⟨by decide, by decide, by decide, ?_, by decide, by decide⟩
  intro fuel
  unfold run_nonblocking_then_wait
  cases p_run envFail2Stuck __pal_dev_pthreads_ops fuel world4 3 2 0 4 0 [] 1 with
  | none => rfl
  | some r =>
    have hw : p_wait envFail2Stuck __pal_dev_pthreads_ops fuel r.2 2 = none :=
      dev_wait_stuck envFail2Stuck r.2 _ 2 (fun _ _ => ⟨0, by decide, Or.inr rfl⟩) fuel
    simp only [hw]

/-- C3 (amended): for every environment, state, program, team, range, arguments
and fuel, with `fb` a flags word with bit 0 clear (blocking) and `fn` one with
bit 0 set (NonBlocking):
* `p_run` with `fn` always returns;
* when it returns 0, `p_run` with `fb` has the outcome of `p_run` with `fn`
  followed by `p_wait` on the same team: the same return value and the same
  final state, and the one has not returned within the fuel exactly when the
  other has not;
* when it returns an error, `p_run` with `fb` returns the same error with the
  same state, status cells included, at once: it does not call `p_wait`. -/
theorem C3_blocking_run_eq_nonblocking_then_wait_on_success (env : Env) (fuel : Nat)
    (w : World) (p t : Nat) (start size nargs : Int) (args : List String) (fb fn : Int)
    (hb : Int.land fb 1 = 0) (hn : Int.land fn 1 ≠ 0) :
    (∃ r : Int × World,
      p_run env __pal_dev_pthreads_ops fuel w p t start size nargs args fn = some r) ∧
    (∀ w1 : World,
      p_run env __pal_dev_pthreads_ops fuel w p t start size nargs args fn = some (0, w1) →
      p_run env __pal_dev_pthreads_ops fuel w p t start size nargs args fb
        = run_nonblocking_then_wait env __pal_dev_pthreads_ops fuel w p t start size nargs
            args fn ∧
      p_run env __pal_dev_pthreads_ops fuel w p t start size nargs args fb
        = p_wait env __pal_dev_pthreads_ops fuel w1 t) ∧
    (∀ (e : Int) (w1 : World), e ≠ 0 →
      p_run env __pal_dev_pthreads_ops fuel w p t start size nargs args fn = some (e, w1) →
      p_run env __pal_dev_pthreads_ops fuel w p t start size nargs args fb = some (e, w1)) := by
  have hB := p_run_eq env fuel w p t start size nargs args fb
  have hN := p_run_eq env fuel w p t start size nargs args fn
  by_cases hbad : (env.p_ref_is_err p || env.p_ref_is_err t) = true ∨ start < 0 ∨ size ≤ 0
  · rw [if_pos hbad] at hB hN
    refine ⟨⟨_, hN⟩, ?_, ?_⟩
    · intro w1 h
      rw [hN] at h
      simp [EINVAL] at h
    · intro e w1 _ h
      rw [hN] at h
      rw [hB]
      exact h
  rw [if_neg hbad] at hB hN
  by_cases hz : (dev_run env w (w.teams t).dev t p start size nargs args 0).1 = 0
  · rw [if_neg (not_not.mpr hz), if_pos hb] at hB
    rw [if_neg (not_not.mpr hz), if_neg hn] at hN
    refine ⟨⟨_, hN⟩, ?_, ?_⟩
    · intro w1 h
      rw [hN] at h
      simp only [Option.some.injEq, Prod.mk.injEq, true_and] at h
      subst h
      refine ⟨?_, hB⟩
      rw [hB]
      unfold run_nonblocking_then_wait
      rw [hN]
      cases hw : p_wait env __pal_dev_pthreads_ops fuel
          (dev_run env w (w.teams t).dev t p start size nargs args 0).2 t with
      | none => simp only [hw]
      | some r2 =>
        simp only [hw, ne_eq, not_true_eq_false, if_false]
    · intro e w1 he h
      rw [hN] at h
      simp only [Option.some.injEq, Prod.mk.injEq] at h
      exact absurd h.1.symm he
  · rw [if_pos hz] at hB hN
    refine ⟨⟨_, hN⟩, ?_, ?_⟩
    · intro w1 h
      rw [hN] at h
      simp only [Option.some.injEq] at h
      exact absurd (by rw [h]) hz
    · intro e w1 _ h
      rw [hN] at h
      rw [hB]
      exact h

/-- Witness for C3 (amended): flags 0 against flags 1 on the four-cell team, range
`[0, 4)`, every load succeeding: both sides return 0 after one poll; and with
the load of slot 2 failing both calls of `p_run` return `-EIO` without a poll. -/
theorem C3_blocking_run_eq_nonblocking_then_wait_on_success_witness :
    (p_run envOK __pal_dev_pthreads_ops 5 world4 3 2 0 4 0 [] 1).map
        (fun r => (r.1, (r.2.teams 2).data, r.2.reads)) = some (0, [1, 1, 1, 1], 0) ∧
    (p_run envOK __pal_dev_pthreads_ops 5 world4 3 2 0 4 0 [] 0).map
        (fun r => (r.1, (r.2.teams 2).data, r.2.reads)) = some (0, [1, 1, 1, 1], 1) ∧
    (run_nonblocking_then_wait envOK __pal_dev_pthreads_ops 5 world4 3 2 0 4 0 [] 1).map
        (fun r => (r.1, (r.2.teams 2).data, r.2.reads)) = some (0, [1, 1, 1, 1], 1) ∧
    (p_run envFail2 __pal_dev_pthreads_ops 5 world4 3 2 0 4 0 [] 0).map
        (fun r => (r.1, r.2.reads)) = some (- EIO, 0) ∧
    p_run envOK __pal_dev_pthreads_ops 5 world4 3 2 0 4 0 [] 0
      = run_nonblocking_then_wait envOK __pal_dev_pthreads_ops 5 world4 3 2 0 4 0 [] 1 :=
  ⟨by decide, by decide, by decide, by decide,
    ((C3_blocking_run_eq_nonblocking_then_wait_on_success envOK 5 world4 3 2 0 4 0 [] 0 1
      (by decide) (by decide)).2.1 (dev_run envOK world4 1 2 3 0 4 0 [] 1).2 (by rfl)).1⟩

end PAL
